import Mathlib

/-!
# LogicMonitor Groovy runner: device lookup, script submission, output polling

A shallow embedding of `src/utils.js`, `src/deviceService.js` and
`src/scriptRunnerService.js`.

The extension's commands are sequences of host calls (prompts, pick lists,
messages, secret storage, the global-state slot `selectedDevice`) around one
HTTP call each.  They are embedded as functions on an explicit `World`:

* the answers of the host (what the user types and picks, what the remote API
  replies) are given by a `Host`, a family of answer streams; the world counts
  how many answers of each stream have been consumed;
* every host call is recorded in `World.trace`, newest first;
* JavaScript strings are Lean strings; a value that may be `undefined`/`null`
  is an `Option`; `!x` on such a value is `falsy x`;
* `fetchDevices` calls itself again on an empty result.  The embedding counts
  entries of `fetchDevices` against a budget; a run that exhausts it is
  reported as `Outcome.unfinished` together with the world reached so far;
* `setInterval` is embedded by the pollers registered in the world and the two
  transitions `timerFires` (the callback starts and suspends at its `await`)
  and `pollResponse` (the awaited GET settles and the callback finishes).
-/

namespace LogicMonitor

/-! ## Data -/

/-- An entry of `devices` (deviceService.js 70-74), also the value kept in the
global-state slot `selectedDevice`. -/
structure Device where
  label : String
  id : String
  collectorId : String
  deriving DecidableEq, Repr

/-- An element of `response.data.items` of the device search. -/
structure Item where
  displayName : String
  id : String
  currentCollectorId : String
  deriving DecidableEq, Repr

/-- The object exported by settings.js. -/
structure Settings where
  apiVersion : String
  apiProtocol : String
  apiDomain : String
  apiPath : String
  pollEvery : Nat
  sizeValue : Nat
  deriving DecidableEq, Repr

/-- The `headers` object passed to every axios call. -/
structure Headers where
  authorization : String
  contentType : String
  xVersion : String
  deriving DecidableEq, Repr

/-- The `params` object of the device search. -/
structure Params where
  filter : String
  size : Nat
  deriving DecidableEq, Repr

/-- How an awaited axios call settles: the promise rejects with an error
carrying `message`, or it resolves with the datum the caller reads from
`response.data`. -/
inductive Reply (α : Type) where
  | fails (message : String)
  | ok (data : α)
  deriving DecidableEq, Repr

/-- The host calls made by the code, in the vocabulary of the source. -/
inductive Effect where
  | showInputBox (prompt placeHolder : String) (password : Bool)
  | showQuickPick (items : List String) (placeHolder : String)
  | showQuickPickDevices (items : List Device) (placeHolder : String)
  | showInformationMessage (message : String)
  | showErrorMessage (message : String)
  | secretsStore (key value : String)
  | secretsDelete (key : String)
  | globalStateUpdate (value : Option Device)
  | axiosGet (url : String) (headers : Headers) (params : Option Params)
  | axiosPost (url cmdline : String) (headers : Headers)
  | consoleLog (message : String)
  | consoleError (message : String)
  | setInterval (intervalId ms : Nat)
  | clearInterval (intervalId : Nat)
  | showOutputInNewTab (output : String)
  | createWebviewPanel (viewType title : String)
  | webviewHtml (html : String)
  deriving DecidableEq, Repr

/-- A timer created by `setInterval` in `pollForOutput`, with the variables its
callback closes over.  `active` is false once `clearInterval` was called on
it; `inFlight` counts the callbacks suspended at `await axios.get`. -/
structure Poller where
  sessionId : String
  collectorId : String
  apiKey : String
  companyName : String
  active : Bool
  inFlight : Nat
  deriving DecidableEq, Repr

/-- The state the commands read and write. `companyName` and `apiKey` are the
two entries of `context.secrets`, `selectedDevice` the global-state slot,
`editor` the text of `vscode.window.activeTextEditor` (`none`: no editor). -/
structure World where
  companyName : Option String
  apiKey : Option String
  selectedDevice : Option Device
  editor : Option String
  pollers : List Poller
  nInput : Nat
  nPick : Nat
  nSearch : Nat
  nSubmit : Nat
  trace : List Effect
  deriving DecidableEq, Repr

/-- The answers of the host, one stream per kind of await: the text entered in
the n-th input box (`none`: dismissed), the index picked in the n-th quick
pick (`none`: dismissed), the reply to the n-th device search and to the n-th
script submission (`response.data.sessionId`). -/
structure Host where
  inputBox : Nat → Option String
  quickPick : Nat → Option Nat
  search : Nat → Reply (List Item)
  submit : Nat → Reply (Option String)

/-- What a command run yields: it returned, or the budget of `fetchDevices`
entries ran out while it was still re-entering the search. -/
inductive Outcome where
  | returned (w : World)
  | unfinished (w : World)
  deriving DecidableEq, Repr

/-- The world a run reached. -/
def Outcome.world : Outcome → World
  | .returned w => w
  | .unfinished w => w

/-! ## JavaScript and host primitives -/

/-- JavaScript `!x` for a value that is a string, `undefined` or `null`. -/
def falsy : Option String → Bool
  | none => true
  | some s => s == ""

/-- Records one host call. -/
def emit (e : Effect) (w : World) : World :=
  { w with trace := e :: w.trace }

/-- The call `vscode.window.showInputBox`: the answer is `h.inputBox w.nInput`. -/
def showInputBox (prompt placeHolder : String) (password : Bool) (w : World) : World :=
  { w with nInput := w.nInput + 1,
           trace := Effect.showInputBox prompt placeHolder password :: w.trace }

/-- The call `vscode.window.showQuickPick` over strings: the answer is the item at index
`h.quickPick w.nPick`. -/
def showQuickPick (items : List String) (placeHolder : String) (w : World) : World :=
  { w with nPick := w.nPick + 1,
           trace := Effect.showQuickPick items placeHolder :: w.trace }

/-- The call `vscode.window.showQuickPick` over device entries. -/
def showQuickPickDevices (items : List Device) (placeHolder : String) (w : World) : World :=
  { w with nPick := w.nPick + 1,
           trace := Effect.showQuickPickDevices items placeHolder :: w.trace }

/-- The item a quick pick resolves to: one of the offered items, or nothing. -/
def picked {α : Type} (items : List α) (answer : Option Nat) : Option α :=
  match answer with
  | none => none
  | some i => items.get? i

/-- The call `context.globalState.update` on the key `selectedDevice`. -/
def globalStateUpdate (value : Option Device) (w : World) : World :=
  { w with selectedDevice := value,
           trace := Effect.globalStateUpdate value :: w.trace }

/-- The key of the account identifier in the secret storage. -/
def COMPANY_NAME_KEY : String := "logicmonitor.companyName"

/-- The key of the API token in the secret storage. -/
def API_KEY_KEY : String := "logicmonitor.apiKey"

/-- The call `secretStorage.store(COMPANY_NAME_KEY, value)`. -/
def storeCompanyName (value : String) (w : World) : World :=
  { w with companyName := some value,
           trace := Effect.secretsStore COMPANY_NAME_KEY value :: w.trace }

/-- The call `secretStorage.store(API_KEY_KEY, value)`. -/
def storeApiKey (value : String) (w : World) : World :=
  { w with apiKey := some value,
           trace := Effect.secretsStore API_KEY_KEY value :: w.trace }

/-- The call `secretStorage.delete(COMPANY_NAME_KEY)`. -/
def deleteCompanyName (w : World) : World :=
  { w with companyName := none,
           trace := Effect.secretsDelete COMPANY_NAME_KEY :: w.trace }

/-- The call `secretStorage.delete(API_KEY_KEY)`. -/
def deleteApiKey (w : World) : World :=
  { w with apiKey := none,
           trace := Effect.secretsDelete API_KEY_KEY :: w.trace }

/-- The call `axios.get` of the device search: the reply is `h.search w.nSearch`. -/
def axiosGetSearch (url : String) (headers : Headers) (params : Params) (w : World) : World :=
  { w with nSearch := w.nSearch + 1,
           trace := Effect.axiosGet url headers (some params) :: w.trace }

/-- The call `axios.post` of the script submission: the reply is `h.submit w.nSubmit`. -/
def axiosPost (url cmdline : String) (headers : Headers) (w : World) : World :=
  { w with nSubmit := w.nSubmit + 1,
           trace := Effect.axiosPost url cmdline headers :: w.trace }

/-- The headers object built at each axios call. -/
def mkHeaders (cfg : Settings) (apiKey : String) : Headers :=
  { authorization := "Bearer " ++ apiKey,
    contentType := "application/json",
    xVersion := cfg.apiVersion }

/-- The common base of the request URLs:
`${settings.apiProtocol}://${companyName}.${settings.apiDomain}/${settings.apiPath}`. -/
def baseUrl (cfg : Settings) (companyName : String) : String :=
  cfg.apiProtocol ++ "://" ++ companyName ++ "." ++ cfg.apiDomain ++ "/" ++ cfg.apiPath

/-! ## utils.js -/

/-- The function `ensureCredentials` (utils.js 16-51): the returned boolean and the world. -/
def ensureCredentials (h : Host) (w : World) : Bool × World :=
  let companyName := w.companyName
  let apiKey := w.apiKey
  let afterCompany : Bool × World :=
    if falsy companyName then
      let answer := h.inputBox w.nInput
      let w1 := showInputBox
        "Enter your LogicMonitor company name (e.g., example for your url example.logicmonitor.com)"
        "example" false w
      if falsy answer then
        (false, emit (Effect.showErrorMessage "Company name is required!") w1)
      else
        (true, storeCompanyName (answer.getD "") w1)
    else
      (true, w)
  if afterCompany.1 = false then afterCompany else
  let w2 := afterCompany.2
  if falsy apiKey then
    let answer := h.inputBox w2.nInput
    let w3 := showInputBox
      "Enter your LogicMonitor API key (Only supports Bearer Tokens, NOT LMv1)"
      "API Key" true w2
    if falsy answer then
      (false, emit (Effect.showErrorMessage "API key is required!") w3)
    else
      (true, storeApiKey (answer.getD "") w3)
  else
    (true, w2)

/-- The function `configure` (utils.js 58-85). -/
def configure (h : Host) (w : World) : World :=
  let companyName := h.inputBox w.nInput
  let w1 := showInputBox
    "Enter your LogicMonitor company name (e.g., example for example.logicmonitor.com)"
    "example" false w
  if falsy companyName then
    emit (Effect.showErrorMessage "Company name is required!") w1
  else
  let w2 := storeCompanyName (companyName.getD "") w1
  let apiKey := h.inputBox w2.nInput
  let w3 := showInputBox
    "Enter your LogicMonitor API key (Only supports Bearer Tokens, NOT LMv1)"
    "API Key" true w2
  if falsy apiKey then
    emit (Effect.showErrorMessage "API key is required!") w3
  else
    emit (Effect.showInformationMessage "Configuration successful!")
      (storeApiKey (apiKey.getD "") w3)

/-- The function `updateCompanyName` (utils.js 94-107). -/
def updateCompanyName (h : Host) (w : World) : World :=
  let companyName := h.inputBox w.nInput
  let w1 := showInputBox
    "Enter your new LogicMonitor company name (e.g., example.logicmonitor.com)"
    "example" false w
  if falsy companyName then
    emit (Effect.showErrorMessage "Company name update canceled.") w1
  else
    emit (Effect.showInformationMessage "Company name updated successfully!")
      (storeCompanyName (companyName.getD "") w1)

/-- The function `updateApiKey` (utils.js 110-124). -/
def updateApiKey (h : Host) (w : World) : World :=
  let apiKey := h.inputBox w.nInput
  let w1 := showInputBox "Enter your new LogicMonitor API key" "API Key" true w
  if falsy apiKey then
    emit (Effect.showErrorMessage "API key update canceled.") w1
  else
    emit (Effect.showInformationMessage "API key updated successfully!")
      (storeApiKey (apiKey.getD "") w1)

/-- The function `clearConfig` (utils.js 131-138). -/
def clearConfig (w : World) : World :=
  emit (Effect.showInformationMessage "Credentials cleared successfully!")
    (deleteApiKey (deleteCompanyName w))

/-- The function `clearApiKey` (utils.js 141-147). -/
def clearApiKey (w : World) : World :=
  emit (Effect.showInformationMessage "API key cleared successfully!") (deleteApiKey w)

/-- The function `clearCompanyName` (utils.js 150-156). -/
def clearCompanyName (w : World) : World :=
  emit (Effect.showInformationMessage "Company name cleared successfully!")
    (deleteCompanyName w)

/-! ## deviceService.js -/

/-- The `prompt` of the search-term input box (line 45). -/
def searchPrompt (searchBy : String) : String :=
  "Enter the " ++ (if searchBy = "By IP" then "IP address" else "device name") ++ " to search"

/-- The `placeHolder` of the search-term input box (line 46). -/
def searchPlaceHolder (searchBy : String) : String :=
  "Search by " ++ (if searchBy = "By IP" then "IP" else "name")

/-- The value of `queryParam` (line 55) for the picked search mode and the
entered term. -/
def queryParam (searchBy searchTerm : String) : String :=
  if searchBy = "By IP" then "name~\"" ++ searchTerm ++ "\""
  else "displayName~\"" ++ searchTerm ++ "\""

/-- The function `fetchDevices` (deviceService.js 6-95).  The first argument bounds the
number of entries into the function (line 79 re-enters it). -/
def fetchDevices (cfg : Settings) (h : Host) : Nat → World → Outcome
  | 0, w => Outcome.unfinished w
  | fuel + 1, w =>
    -- Step 1
    let ec := ensureCredentials h w
    if ec.1 = false then Outcome.returned ec.2 else
    let w1 := ec.2
    -- Step 2
    let companyName := w1.companyName
    let apiKey := w1.apiKey
    if falsy companyName || falsy apiKey then
      Outcome.returned
        (emit (Effect.showErrorMessage "Credentials are missing. Please configure them again.") w1)
    else
    -- Step 3
    let searchBy := picked ["By IP", "By Name"] (h.quickPick w1.nPick)
    let w2 := showQuickPick ["By IP", "By Name"] "Select how you want to search devices" w1
    match searchBy with
    | none => Outcome.returned (emit (Effect.showErrorMessage "Search method not selected!") w2)
    | some searchBy =>
      -- Step 4
      let searchTerm := h.inputBox w2.nInput
      let w3 := showInputBox (searchPrompt searchBy) (searchPlaceHolder searchBy) false w2
      if falsy searchTerm then
        Outcome.returned (emit (Effect.showErrorMessage "Search term is required!") w3)
      else
      let searchTerm := searchTerm.getD ""
      -- Step 5
      let queryParam := queryParam searchBy searchTerm
      -- Step 6
      let response := h.search w3.nSearch
      let w4 := axiosGetSearch
        (baseUrl cfg (companyName.getD "") ++ "/device/devices")
        (mkHeaders cfg (apiKey.getD ""))
        { filter := queryParam, size := cfg.sizeValue } w3
      match response with
      | Reply.fails message =>
        Outcome.returned
          (emit (Effect.showErrorMessage ("Error fetching devices: " ++ message))
            (emit (Effect.consoleError message) w4))
      | Reply.ok items =>
        let devices := items.map (fun device =>
          ({ label := device.displayName,
             id := device.id,
             collectorId := device.currentCollectorId } : Device))
        -- Step 7
        if devices.length = 0 then
          fetchDevices cfg h fuel
            (emit (Effect.showInformationMessage
              "No devices found matching your criteria. Please try again.") w4)
        else
        -- Step 8
        let selectedDevice := picked devices (h.quickPick w4.nPick)
        let w5 := showQuickPickDevices devices "Select a device to run the script on" w4
        match selectedDevice with
        | some d =>
          Outcome.returned
            (globalStateUpdate (some d)
              (emit (Effect.showInformationMessage ("You selected: " ++ d.label)) w5))
        | none => Outcome.returned w5

/-- The function `clearSelectedDevice` (deviceService.js 98-114). The update of the host's
memento is taken to succeed, so the `catch` branch is not entered. -/
def clearSelectedDevice (w : World) : World :=
  emit (Effect.showInformationMessage "Selected device has been cleared.")
    (globalStateUpdate none w)

/-! ## scriptRunnerService.js -/

/-- The characters `String.prototype.trim` strips: the WhiteSpace and
LineTerminator code points of ECMAScript. -/
def isJsWhitespace (c : Char) : Bool :=
  c.val == 0x09 || c.val == 0x0A || c.val == 0x0B || c.val == 0x0C || c.val == 0x0D ||
  c.val == 0x20 || c.val == 0xA0 || c.val == 0x1680 ||
  (0x2000 ≤ c.val && c.val ≤ 0x200A) ||
  c.val == 0x2028 || c.val == 0x2029 || c.val == 0x202F || c.val == 0x205F ||
  c.val == 0x3000 || c.val == 0xFEFF

/-- The call `String.prototype.trim`. -/
def jsTrim (s : String) : String :=
  String.mk (((s.data.dropWhile isJsWhitespace).reverse.dropWhile isJsWhitespace).reverse)

/-- The test of line 196: `result.data.output && result.data.output.trim() !== ""`. -/
def outputReady (output : Option String) : Bool :=
  !falsy output && jsTrim (output.getD "") != ""

/-- The value of `output.replace(/\n/g, '<br/>')` (line 305). -/
def replaceNewlines (output : String) : String :=
  String.mk (output.data.flatMap (fun c => if c = '\n' then "<br/>".data else [c]))

/-- The text of the template literal of lines 237-309 up to the first
interpolation. -/
def htmlUpToHeader : String :=
  "\n<html>\n    <head>\n        <style>\n            body \x7b\n                background-color: #2e3436;\n                color: #dcdcdc;\n                font-family: \x27Courier New\x27, monospace;\n                font-size: 14px;\n                padding: 20px;\n                margin: 0;\n                line-height: 1.5;\n                overflow-y: auto;\n            \x7d\n            .header \x7b\n                font-size: 18px;\n                font-weight: bold;\n                color: #f8f8f2;\n                margin-bottom: 10px;\n            \x7d\n            .description \x7b\n                font-size: 14px;\n                color: #aaa;\n                margin-bottom: 20px;\n            \x7d\n            .device-details \x7b\n                font-size: 14px;\n                color: #f8f8f2;\n                margin-bottom: 20px;\n                background-color: #1e2222;\n                padding: 10px;\n                border-radius: 5px;\n                box-shadow: inset 0 0 10px rgba(0, 0, 0, 0.2);\n            \x7d\n            .console \x7b\n                white-space: pre-wrap;\n                word-wrap: break-word;\n                overflow-wrap: break-word;\n                max-height: 500px;\n                padding: 10px;\n                border-radius: 5px;\n                background-color: #1e2222;\n                color: #f8f8f2;\n                box-shadow: inset 0 0 10px rgba(0, 0, 0, 0.2);\n                font-size: 13px;\n                font-family: \x27Courier New\x27, monospace;\n                overflow-y: auto;\n                height: 100%;\n            \x7d\n        </style>\n    </head>\n    <body>\n        <!\x2d\x2d Title Section \x2d\x2d>\n        <div class=\"header\">Script Output - Device: "

/-- The template text between the first and the second interpolation. -/
def htmlUpToLabel : String :=
  "</div>\n        \n        <!\x2d\x2d Device Details Section \x2d\x2d>\n        <div class=\"device-details\">\n            <strong>Device Details:</strong><br/>\n            <strong>Label:</strong> "

/-- The template text between the second label and the id. -/
def htmlUpToId : String :=
  "<br/>\n            <strong>ID:</strong> "

/-- The template text between the id and the collector id. -/
def htmlUpToCollector : String :=
  "<br/>\n            <strong>Collector ID:</strong> "

/-- The template text between the collector id and the output. -/
def htmlUpToConsole : String :=
  "<br/>\n        </div>\n\n        <!\x2d\x2d Description Section \x2d\x2d>\n        <div class=\"description\">Here is the output of your script execution. Scroll through the results below:</div>\n        \n        <!\x2d\x2d Console Section \x2d\x2d>\n        <div class=\"console\">\n"

/-- The template text after the output. -/
def htmlEnd : String :=
  " <!\x2d\x2d replace newlines in output with br \x2d\x2d>\n        </div>\n    </body>\n</html>\n"

/-- The value of `htmlContent` (lines 237-309). -/
def htmlContent (selectedDevice : Device) (output : String) : String :=
  htmlUpToHeader ++ selectedDevice.label ++ htmlUpToLabel ++ selectedDevice.label ++
  htmlUpToId ++ selectedDevice.id ++ htmlUpToCollector ++ selectedDevice.collectorId ++
  htmlUpToConsole ++ replaceNewlines output ++ htmlEnd

/-- The message of the TypeError raised by `selectedDevice.label` when the slot
holds `null`, the value `clearSelectedDevice` writes (wording of V8). -/
def nullLabelMessage : String :=
  "Cannot read properties of null (reading \x27label\x27)"

/-- The function `showOutputInNewTab` (lines 223-316): the message of the error thrown, if
any, and the world.  With an empty slot the first property access (line 228)
throws before any host call is made. -/
def showOutputInNewTab (output : String) (w : World) : Option String × World :=
  let w0 := emit (Effect.showOutputInNewTab output) w
  match w0.selectedDevice with
  | none => (some nullLabelMessage, w0)
  | some selectedDevice =>
    let w1 := emit (Effect.createWebviewPanel "scriptOutput"
      ("Script Output - " ++ selectedDevice.label)) w0
    let w2 := emit (Effect.webviewHtml (htmlContent selectedDevice output)) w1
    (none, emit (Effect.showInformationMessage "Script output is ready!") w2)

/-- The function `pollForOutput` (lines 169-215): `setInterval` registers the timer and
the function returns; the new timer's id is its position in `pollers`. -/
def pollForOutput (cfg : Settings) (sessionId collectorId apiKey companyName : String)
    (w : World) : World :=
  { w with
    pollers := w.pollers ++
      [{ sessionId := sessionId, collectorId := collectorId, apiKey := apiKey,
         companyName := companyName, active := true, inFlight := 0 }],
    trace := Effect.setInterval w.pollers.length cfg.pollEvery :: w.trace }

/-- The call `clearInterval(intervalId)`. -/
def clearInterval (intervalId : Nat) (w : World) : World :=
  { w with
    pollers := w.pollers.modify (fun p => { p with active := false }) intervalId,
    trace := Effect.clearInterval intervalId :: w.trace }

/-- The timer `intervalId` fires: the callback of line 183 starts, issues
the GET of line 185 and suspends at `await`.  A cleared timer does not fire. -/
def timerFires (cfg : Settings) (intervalId : Nat) (w : World) : World :=
  match w.pollers.get? intervalId with
  | none => w
  | some p =>
    if p.active then
      { w with
        pollers := w.pollers.modify (fun p => { p with inFlight := p.inFlight + 1 }) intervalId,
        trace := Effect.axiosGet
          (baseUrl cfg p.companyName ++ "/debug/" ++ p.sessionId ++ "?collectorId=" ++ p.collectorId)
          (mkHeaders cfg p.apiKey) none :: w.trace }
    else w

/-- The `catch` block of lines 205-209. -/
def pollCatch (intervalId : Nat) (message : String) (w : World) : World :=
  emit (Effect.showErrorMessage ("Error polling for script output: " ++ message))
    (emit (Effect.consoleError message) (clearInterval intervalId w))

/-- A GET awaited by a callback of timer `intervalId` settles with `result`
(`result.data.output` when it resolves) and the callback runs to its end
(lines 196-209). -/
def pollResponse (intervalId : Nat) (result : Reply (Option String)) (w : World) : World :=
  match w.pollers.get? intervalId with
  | none => w
  | some p =>
    if p.inFlight = 0 then w else
    let w1 : World :=
      { w with pollers := w.pollers.modify (fun p => { p with inFlight := p.inFlight - 1 }) intervalId }
    match result with
    | Reply.fails message => pollCatch intervalId message w1
    | Reply.ok output =>
      if outputReady output then
        let w2 := clearInterval intervalId w1
        let shown := showOutputInNewTab (output.getD "") w2
        match shown.1 with
        | some message => pollCatch intervalId message shown.2
        | none => shown.2
      else
        emit (Effect.consoleLog "Output not ready yet, continuing to poll...") w1

/-- The value of `cmdline` in the body of the submission (lines 63 and 143). -/
def cmdline (selectedDevice : Device) (script : String) : String :=
  "!groovy hostId=" ++ selectedDevice.id ++ " \n " ++ script

/-- The function `runScriptOnDevice` (lines 7-85).  The test of line 52 is
written once, after Step 4: when the slot already held a device the lookup is
skipped, the world is unchanged and the test is passed. -/
def runScriptOnDevice (cfg : Settings) (h : Host) (fuel : Nat) (w : World) : Outcome :=
  -- Step 1
  let ec := ensureCredentials h w
  if ec.1 = false then Outcome.returned ec.2 else
  let w1 := ec.2
  -- Step 2
  let companyName := w1.companyName
  let apiKey := w1.apiKey
  if falsy companyName || falsy apiKey then
    Outcome.returned
      (emit (Effect.showErrorMessage "Credentials are missing. Please configure them again.") w1)
  else
  -- Step 3
  match w1.editor with
  | none =>
    Outcome.returned
      (emit (Effect.showErrorMessage "No active editor. Please open a file to run the script.") w1)
  | some script =>
    if script = "" then
      Outcome.returned (emit (Effect.showErrorMessage "No script found in the active editor!") w1)
    else
    -- Step 4
    let resolved : Outcome :=
      match w1.selectedDevice with
      | some _ => Outcome.returned w1
      | none => fetchDevices cfg h fuel w1
    match resolved with
    | Outcome.unfinished w2 => Outcome.unfinished w2
    | Outcome.returned w2 =>
      match w2.selectedDevice with
      | none =>
        Outcome.returned
          (emit (Effect.showErrorMessage
            "No device selected. Please select a device to run the script on.") w2)
      | some selectedDevice =>
        -- Step 5
        let response := h.submit w2.nSubmit
        let w3 := axiosPost
          (baseUrl cfg (companyName.getD "") ++ "/debug/?collectorId=" ++ selectedDevice.collectorId)
          (cmdline selectedDevice script)
          (mkHeaders cfg (apiKey.getD "")) w2
        match response with
        | Reply.fails message =>
          Outcome.returned
            (emit (Effect.showErrorMessage ("Error running script: " ++ message))
              (emit (Effect.consoleError message) w3))
        | Reply.ok sessionId =>
          -- Step 6
          if falsy sessionId then
            Outcome.returned
              (emit (Effect.showErrorMessage "Failed to retrieve sessionId for script execution.") w3)
          else
            Outcome.returned
              (pollForOutput cfg (sessionId.getD "") selectedDevice.collectorId
                (apiKey.getD "") (companyName.getD "")
                (emit (Effect.showInformationMessage "Script is running... Waiting for output...") w3))

/-- The function `runScriptOnNewDevice` (lines 88-166). -/
def runScriptOnNewDevice (cfg : Settings) (h : Host) (fuel : Nat) (w : World) : Outcome :=
  -- Step 1
  let ec := ensureCredentials h w
  if ec.1 = false then Outcome.returned ec.2 else
  let w1 := ec.2
  -- Step 2
  let companyName := w1.companyName
  let apiKey := w1.apiKey
  if falsy companyName || falsy apiKey then
    Outcome.returned
      (emit (Effect.showErrorMessage "Credentials are missing. Please configure them again.") w1)
  else
  -- Step 3
  match w1.editor with
  | none =>
    Outcome.returned
      (emit (Effect.showErrorMessage "No active editor. Please open a file to run the script.") w1)
  | some script =>
    if script = "" then
      Outcome.returned (emit (Effect.showErrorMessage "No script found in the active editor!") w1)
    else
    -- Step 4: fetch new device
    match fetchDevices cfg h fuel w1 with
    | Outcome.unfinished w2 => Outcome.unfinished w2
    | Outcome.returned w2 =>
      match w2.selectedDevice with
      | none =>
        Outcome.returned
          (emit (Effect.showErrorMessage
            "No device selected. Please select a device to run the script on.") w2)
      | some selectedDevice =>
        -- Step 5
        let response := h.submit w2.nSubmit
        let w3 := axiosPost
          (baseUrl cfg (companyName.getD "") ++ "/debug/?collectorId=" ++ selectedDevice.collectorId)
          (cmdline selectedDevice script)
          (mkHeaders cfg (apiKey.getD "")) w2
        match response with
        | Reply.fails message =>
          Outcome.returned
            (emit (Effect.showErrorMessage ("Error running script: " ++ message))
              (emit (Effect.consoleError message) w3))
        | Reply.ok sessionId =>
          -- Step 6
          if falsy sessionId then
            Outcome.returned
              (emit (Effect.showErrorMessage "Failed to retrieve sessionId for script execution.") w3)
          else
            Outcome.returned
              (pollForOutput cfg (sessionId.getD "") selectedDevice.collectorId
                (apiKey.getD "") (companyName.getD "")
                (emit (Effect.showInformationMessage "Script is running... Waiting for output...") w3))

/-! ## The event loop of a poller -/

/-- An event of the event loop that concerns a poller. -/
inductive PollStep where
  | fire (intervalId : Nat)
  | respond (intervalId : Nat) (result : Reply (Option String))
  deriving DecidableEq, Repr

/-- One event of the event loop. -/
def pollStep (cfg : Settings) (w : World) : PollStep → World
  | PollStep.fire i => timerFires cfg i w
  | PollStep.respond i r => pollResponse i r w

/-- A sequence of events, handled in order. -/
def pollRun (cfg : Settings) (w : World) (steps : List PollStep) : World :=
  steps.foldl (pollStep cfg) w

/-- The schedule in which every response is handled before the timer fires
again: tick, response, tick, response, ... -/
def sequential (intervalId : Nat) (results : List (Reply (Option String))) : List PollStep :=
  results.flatMap (fun r => [PollStep.fire intervalId, PollStep.respond intervalId r])

/-! ## Observations on the trace -/

/-- The device lists offered for selection, newest first. -/
def offeredIn : List Effect → List (List Device)
  | [] => []
  | Effect.showQuickPickDevices items _ :: es => items :: offeredIn es
  | _ :: es => offeredIn es

/-- The device lists a world's trace shows as offered, newest first. -/
def offered (w : World) : List (List Device) := offeredIn w.trace

/-- The `filter` parameters of the device searches sent, newest first. -/
def searchFiltersIn : List Effect → List String
  | [] => []
  | Effect.axiosGet _ _ (some p) :: es => p.filter :: searchFiltersIn es
  | _ :: es => searchFiltersIn es

/-- The `filter` parameters of the device searches of a world, newest first. -/
def searchFilters (w : World) : List String := searchFiltersIn w.trace

/-- Whether an effect is an HTTP request. -/
def isHttp : Effect → Bool
  | Effect.axiosGet _ _ _ => true
  | Effect.axiosPost _ _ _ => true
  | _ => false

/-- The HTTP requests of a world (device searches, submissions, polls). -/
def httpRequests (w : World) : List Effect := w.trace.filter isHttp

/-- The submissions sent: URL and `cmdline` of each POST, newest first. -/
def postsIn : List Effect → List (String × String)
  | [] => []
  | Effect.axiosPost url body _ :: es => (url, body) :: postsIn es
  | _ :: es => postsIn es

/-- The submissions of a world, newest first. -/
def posts (w : World) : List (String × String) := postsIn w.trace

/-- The number of poll requests (GETs without `params`) sent. -/
def pollGetsIn : List Effect → Nat
  | [] => 0
  | Effect.axiosGet _ _ none :: es => pollGetsIn es + 1
  | _ :: es => pollGetsIn es

/-- The number of poll requests of a world. -/
def pollGets (w : World) : Nat := pollGetsIn w.trace

/-- The Ready events: the outputs handed to `showOutputInNewTab`, newest first. -/
def readyIn : List Effect → List String
  | [] => []
  | Effect.showOutputInNewTab o :: es => o :: readyIn es
  | _ :: es => readyIn es

/-- The Ready events of a world, newest first. -/
def readyEvents (w : World) : List String := readyIn w.trace

/-- The error messages shown, newest first. -/
def errorsIn : List Effect → List String
  | [] => []
  | Effect.showErrorMessage m :: es => m :: errorsIn es
  | _ :: es => errorsIn es

/-- The error messages of a world (Failed events of a poller among them). -/
def errorMessages (w : World) : List String := errorsIn w.trace

/-- The output panels rendered: title and document, newest first. -/
def panelsIn : List Effect → List String
  | [] => []
  | Effect.webviewHtml html :: es => html :: panelsIn es
  | _ :: es => panelsIn es

/-- The documents rendered in output panels, newest first. -/
def panels (w : World) : List String := panelsIn w.trace

/-- The number of timers started. -/
def timersStartedIn : List Effect → Nat
  | [] => 0
  | Effect.setInterval _ _ :: es => timersStartedIn es + 1
  | _ :: es => timersStartedIn es

/-- The number of timers a world's trace shows as started. -/
def timersStarted (w : World) : Nat := timersStartedIn w.trace

/-! ## Notions used in the statements -/

/-- The world right after the search request of line 58 was sent, from the
world `w1` in which the credentials were found, for the mode and term given. -/
def searchSent (cfg : Settings) (w1 : World) (searchBy searchTerm : String) : World :=
  axiosGetSearch (baseUrl cfg (w1.companyName.getD "") ++ "/device/devices")
    (mkHeaders cfg (w1.apiKey.getD ""))
    { filter := queryParam searchBy searchTerm, size := cfg.sizeValue }
    (showInputBox (searchPrompt searchBy) (searchPlaceHolder searchBy) false
      (showQuickPick ["By IP", "By Name"] "Select how you want to search devices" w1))

/-- The mapping of lines 70-74. -/
def toDevices (items : List Item) : List Device :=
  items.map (fun device =>
    ({ label := device.displayName, id := device.id,
       collectorId := device.currentCollectorId } : Device))

/-- The hypotheses under which a round of `fetchDevices` reaches its search
request: the credentials are obtained, a search mode is picked and a
non-empty term is entered. -/
structure ReachesSearch (h : Host) (w : World) (searchBy searchTerm : String) : Prop where
  credentials : (ensureCredentials h w).1 = true
  mode : picked ["By IP", "By Name"] (h.quickPick (ensureCredentials h w).2.nPick) = some searchBy
  term : h.inputBox (ensureCredentials h w).2.nInput = some searchTerm
  nonempty : searchTerm ≠ ""

/-- The world `w'` is reached from `w` by adding effects that all satisfy `p`. -/
def ExtendsBy (p : Effect → Bool) (w w' : World) : Prop :=
  ∃ new : List Effect, w'.trace = new ++ w.trace ∧ ∀ e ∈ new, p e = true

/-- The effects of `ensureCredentials`. -/
def isCredentialEffect : Effect → Bool
  | Effect.showInputBox _ _ _ => true
  | Effect.secretsStore _ _ => true
  | Effect.showErrorMessage _ => true
  | _ => false

/-- The effects of the device lookup: prompts, picks, messages, the storing of
credentials, the update of the slot and the device search. -/
def isLookupEffect : Effect → Bool
  | Effect.showInputBox _ _ _ => true
  | Effect.showQuickPick _ _ => true
  | Effect.showQuickPickDevices _ _ => true
  | Effect.showInformationMessage _ => true
  | Effect.showErrorMessage _ => true
  | Effect.secretsStore _ _ => true
  | Effect.globalStateUpdate _ => true
  | Effect.axiosGet _ _ (some _) => true
  | Effect.consoleError _ => true
  | _ => false

/-- What the device lookup leaves alone: it only adds lookup effects and keeps
the editor, the pollers and the number of submissions. -/
structure Lookup (w w' : World) : Prop where
  added : ExtendsBy isLookupEffect w w'
  editor : w'.editor = w.editor
  pollers : w'.pollers = w.pollers
  nSubmit : w'.nSubmit = w.nSubmit

/-- A deterministic sequence of host answers in which, from world `w`, the
credentials are obtained, the mode and term prompts of rounds 0..m are
answered, the searches of rounds 0..m-1 return no items and the search of
round m returns `items`, a non-empty list. -/
structure EmptyThenFound (h : Host) (w : World) (m : Nat) (items : List Item) : Prop where
  credentials : (ensureCredentials h w).1 = true
  modes : ∀ j, j ≤ m →
    ∃ searchBy, picked ["By IP", "By Name"]
      (h.quickPick ((ensureCredentials h w).2.nPick + j)) = some searchBy
  terms : ∀ j, j ≤ m →
    ∃ searchTerm, h.inputBox ((ensureCredentials h w).2.nInput + j) = some searchTerm ∧
      searchTerm ≠ ""
  empties : ∀ j, j < m → h.search ((ensureCredentials h w).2.nSearch + j) = Reply.ok []
  found : h.search ((ensureCredentials h w).2.nSearch + m) = Reply.ok items
  nonempty : items ≠ []

/-- The number of search-mode prompts shown. -/
def modePromptsIn : List Effect → Nat
  | [] => 0
  | Effect.showQuickPick _ _ :: es => modePromptsIn es + 1
  | _ :: es => modePromptsIn es

/-- The number of search-mode prompts of a world. -/
def modePrompts (w : World) : Nat := modePromptsIn w.trace

/-- A run of `fetchDevices` selected device `d`: it returned, and the last
thing it did was the update of line 89 with `d`. -/
def Selects (out : Outcome) (d : Device) : Prop :=
  ∃ w', out = Outcome.returned w' ∧
    w'.trace.head? = some (Effect.globalStateUpdate (some d))

/-- The world after the submission request of lines 60-72 (140-152) was sent
from world `w2` for the device and script given, with the credentials read in
Step 2. -/
def submitted (cfg : Settings) (companyName apiKey : Option String) (selectedDevice : Device)
    (script : String) (w2 : World) : World :=
  axiosPost
    (baseUrl cfg (companyName.getD "") ++ "/debug/?collectorId=" ++ selectedDevice.collectorId)
    (cmdline selectedDevice script)
    (mkHeaders cfg (apiKey.getD "")) w2

/-- Step 6 and the `catch` of the run-script commands: what follows the reply
to the submission. -/
def afterSubmit (cfg : Settings) (companyName apiKey : Option String) (selectedDevice : Device)
    (reply : Reply (Option String)) (w3 : World) : World :=
  match reply with
  | Reply.fails message =>
    emit (Effect.showErrorMessage ("Error running script: " ++ message))
      (emit (Effect.consoleError message) w3)
  | Reply.ok sessionId =>
    if falsy sessionId then
      emit (Effect.showErrorMessage "Failed to retrieve sessionId for script execution.") w3
    else
      pollForOutput cfg (sessionId.getD "") selectedDevice.collectorId
        (apiKey.getD "") (companyName.getD "")
        (emit (Effect.showInformationMessage "Script is running... Waiting for output...") w3)

/-- The world in which `runScriptOnDevice` looks for the selected device after
Step 4, from the world `w1` in which the script was validated. -/
def resolvedOnDevice (cfg : Settings) (h : Host) (fuel : Nat) (w1 : World) : World :=
  match w1.selectedDevice with
  | some _ => w1
  | none => (fetchDevices cfg h fuel w1).world

/-- A run of a run-script command from `w` sent the submission: the
credentials were obtained, the editor held a non-empty script, device `d` was
in the slot of the world `w2` reached by Step 4, and the run returned what
follows the reply to the POST. -/
structure Submitted (cfg : Settings) (h : Host) (w w2 : World) (out : Outcome)
    (d : Device) (script : String) : Prop where
  credentials : (ensureCredentials h w).1 = true
  editor : w.editor = some script
  nonempty : script ≠ ""
  lookup : Lookup w w2
  device : w2.selectedDevice = some d
  result : out = Outcome.returned
    (afterSubmit cfg (ensureCredentials h w).2.companyName (ensureCredentials h w).2.apiKey d
      (h.submit w.nSubmit)
      (submitted cfg (ensureCredentials h w).2.companyName (ensureCredentials h w).2.apiKey
        d script w2))

/-- The text of `s` after its first newline character. -/
def textAfterNewline (s : String) : String :=
  String.mk ((s.data.dropWhile (fun c => c != '\n')).drop 1)

/-- Whether an output is absent, empty or made of whitespace only. -/
def isBlank : Option String → Bool
  | none => true
  | some s => s.data.all isJsWhitespace

/-- Whether timer `i` is active and how many of its callbacks are in flight. -/
def pollerState (w : World) (i : Nat) : Option (Bool × Nat) :=
  (w.pollers.get? i).map (fun p => (p.active, p.inFlight))

/-- The world after `pollForOutput` was called in `w` and the ticks of the new
timer were handled one after another, tick n settling with `results[n]`. -/
def afterTicks (cfg : Settings) (sessionId collectorId apiKey companyName : String)
    (w : World) (results : List (Reply (Option String))) : World :=
  pollRun cfg (pollForOutput cfg sessionId collectorId apiKey companyName w)
    (sequential w.pollers.length results)

/-- The number of terminal events of the pollers: Ready events and error
messages. -/
def terminalEvents (w : World) : Nat :=
  (readyEvents w).length + (errorMessages w).length

/-- Between two ticks handled one after another, with device `d` selected:
either the timer is active, nothing is in flight and one terminal event is
still to come (`c` counts the events so far plus that one), or the timer is
cleared, nothing is in flight and the terminal event has been produced. -/
def Settled (w : World) (i : Nat) (d : Device) (c : Nat) : Prop :=
  w.selectedDevice = some d ∧
  ((pollerState w i = some (true, 0) ∧ terminalEvents w + 1 = c) ∨
   (pollerState w i = some (false, 0) ∧ terminalEvents w = c))

/-- The hypotheses under which a run-script command reaches Step 4: the
credentials are obtained and the editor holds the non-empty text `script`. -/
structure ReachesLookup (h : Host) (w : World) (script : String) : Prop where
  credentials : (ensureCredentials h w).1 = true
  editor : w.editor = some script
  nonempty : script ≠ ""

/-- What the run-script commands do once the device lookup of Step 4 is over,
from the outcome `resolved` of that step: the check of the slot, the
submission and what follows its reply.  `w1` is the world of Step 2, in which
the credentials were read. -/
def afterLookup (cfg : Settings) (h : Host) (w1 : World) (script : String)
    (resolved : Outcome) : Outcome :=
  match resolved with
  | Outcome.unfinished w2 => Outcome.unfinished w2
  | Outcome.returned w2 =>
    match w2.selectedDevice with
    | none =>
      Outcome.returned
        (emit (Effect.showErrorMessage
          "No device selected. Please select a device to run the script on.") w2)
    | some d =>
      Outcome.returned
        (afterSubmit cfg w1.companyName w1.apiKey d (h.submit w2.nSubmit)
          (submitted cfg w1.companyName w1.apiKey d script w2))

/-- The outcome of Step 4 of `runScriptOnDevice`: the lookup runs only when
the slot is empty. -/
def lookupIfNone (cfg : Settings) (h : Host) (fuel : Nat) (w1 : World) : Outcome :=
  match w1.selectedDevice with
  | some _ => Outcome.returned w1
  | none => fetchDevices cfg h fuel w1

/-- Whether an effect is the error message of the 'Credentials are missing'
branch (Step 2 of `fetchDevices` and of the run-script commands). -/
def isMissingCredentials : Effect → Bool
  | Effect.showErrorMessage m => m == "Credentials are missing. Please configure them again."
  | _ => false

/-- Whether an effect prompts for the account identifier in `ensureCredentials`
or stores it. -/
def isCompanyNameEffect : Effect → Bool
  | Effect.showInputBox p _ _ => p ==
    "Enter your LogicMonitor company name (e.g., example for your url example.logicmonitor.com)"
  | Effect.secretsStore k _ => k == COMPANY_NAME_KEY
  | _ => false

/-- Whether an effect prompts for the API token in `ensureCredentials` or
stores it. -/
def isApiKeyEffect : Effect → Bool
  | Effect.showInputBox p _ _ => p ==
    "Enter your LogicMonitor API key (Only supports Bearer Tokens, NOT LMv1)"
  | Effect.secretsStore k _ => k == API_KEY_KEY
  | _ => false

/-- A command ended in failure: the last thing it did was to show an error
message. -/
def Failed (w : World) : Prop :=
  ∃ message, w.trace.head? = some (Effect.showErrorMessage message)

/-- The persisted state: the stored account identifier, the stored API token
and the selected device. -/
def persisted (w : World) : Option String × Option String × Option Device :=
  (w.companyName, w.apiKey, w.selectedDevice)

/-- The credentials stored and non-empty in `w` are the same in `w'`. -/
def KeepsStored (w w' : World) : Prop :=
  (falsy w.companyName = false → w'.companyName = w.companyName) ∧
  (falsy w.apiKey = false → w'.apiKey = w.apiKey)

/-! ## Concrete inputs -/

/-- Settings of the end-to-end scenario: page size 10. -/
def cfgEx : Settings :=
  { apiVersion := "3", apiProtocol := "https", apiDomain := "logicmonitor.com",
    apiPath := "santaba/rest", pollEvery := 5000, sizeValue := 10 }

/-- The item of the end-to-end scenario. -/
def itemEx : Item :=
  { displayName := "router1-east", id := "42", currentCollectorId := "7" }

/-- The device mapped from `itemEx`. -/
def deviceEx : Device :=
  { label := "router1-east", id := "42", collectorId := "7" }

/-- A second device. -/
def deviceOther : Device :=
  { label := "switch-9", id := "43", collectorId := "8" }

/-- Credentials acme/tok stored, no device selected, a script in the editor. -/
def worldEx : World :=
  { companyName := some "acme", apiKey := some "tok", selectedDevice := none,
    editor := some "println 1", pollers := [], nInput := 0, nPick := 0, nSearch := 0,
    nSubmit := 0, trace := [] }

/-- As `worldEx`, with `deviceEx` in the slot. -/
def worldSelected : World :=
  { worldEx with selectedDevice := some deviceEx }

/-- No credentials stored, and an editor whose text is empty. -/
def worldBlankEditor : World :=
  { companyName := none, apiKey := none, selectedDevice := none,
    editor := some "", pollers := [], nInput := 0, nPick := 0, nSearch := 0,
    nSubmit := 0, trace := [] }

/-- The user picks 'By Name', types router1 and picks the first device; the
search returns one item; the submission returns a session id. -/
def hostEx : Host :=
  { inputBox := fun _ => some "router1",
    quickPick := fun n => if n = 0 then some 1 else some 0,
    search := fun _ => Reply.ok [itemEx],
    submit := fun _ => Reply.ok (some "s1") }

/-- As `hostEx`, but the submission reply carries no session id. -/
def hostNoSession : Host :=
  { hostEx with submit := fun _ => Reply.ok none }

/-- The user dismisses every prompt. -/
def hostCancel : Host :=
  { inputBox := fun _ => none,
    quickPick := fun _ => none,
    search := fun _ => Reply.fails "Network Error",
    submit := fun _ => Reply.fails "Network Error" }

/-- The first search returns nothing, the second returns one item. -/
def hostRetry : Host :=
  { inputBox := fun _ => some "router1",
    quickPick := fun n => if n = 2 then some 0 else some 1,
    search := fun n => if n = 0 then Reply.ok [] else Reply.ok [itemEx],
    submit := fun _ => Reply.ok (some "s1") }

/-- Two lookups in a row: both return two items; the user picks the first
device in the first lookup and the second device in the second. -/
def hostTwice : Host :=
  { inputBox := fun _ => some "r",
    quickPick := fun n => if n = 1 then some 0 else some 1,
    search := fun _ => Reply.ok
      [itemEx, { displayName := "switch-9", id := "43", currentCollectorId := "8" }],
    submit := fun _ => Reply.ok (some "s1") }

/-- The user dismisses the search-mode pick; the submission would succeed. -/
def hostDismiss : Host :=
  { hostEx with quickPick := fun _ => none }

/-- The user enters an account identifier and dismisses the next prompt. -/
def hostHalf : Host :=
  { hostEx with inputBox := fun n => if n = 0 then some "other" else none }

/-- As `hostEx`, but the submission request fails. -/
def hostSubmitFails : Host :=
  { hostEx with submit := fun _ => Reply.fails "Network Error" }

/-- The world after `runScriptOnDevice` submitted the script of `worldSelected`
to `deviceEx` and started polling. -/
def worldPolling : World :=
  (runScriptOnDevice cfgEx hostEx 0 worldSelected).world

/-- A lookup in which the search returns the item of `deviceOther` and the user
picks it. -/
def hostOther : Host :=
  { inputBox := fun _ => some "switch",
    quickPick := fun n => if n = 0 then some 1 else some 0,
    search := fun _ => Reply.ok
      [{ displayName := "switch-9", id := "43", currentCollectorId := "8" }],
    submit := fun _ => Reply.ok (some "s2") }

/-! ## Lemmas on `ensureCredentials` -/

@[simp] theorem falsy_none : falsy none = true := rfl

@[simp] theorem falsy_some (s : String) : falsy (some s) = (s == "") := rfl

theorem falsy_eq_false_iff (x : Option String) :
    falsy x = false ↔ ∃ s, x = some s ∧ s ≠ "" := by
  cases x <;> simp [falsy]

theorem getD_ne_of_not_falsy (x : Option String) (hx : falsy x = false) :
    ¬ x.getD "" = "" := by
  cases x <;> simp_all

theorem ensureCredentials_stored (h : Host) (w : World)
    (hc : falsy w.companyName = false) (ha : falsy w.apiKey = false) :
    ensureCredentials h w = (true, w) := by
  simp [ensureCredentials, hc, ha]

theorem ensureCredentials_true (h : Host) (w : World)
    (hok : (ensureCredentials h w).1 = true) :
    falsy (ensureCredentials h w).2.companyName = false ∧
    falsy (ensureCredentials h w).2.apiKey = false := by
  revert hok
  simp only [ensureCredentials]
  split_ifs <;> simp_all [emit, storeCompanyName, storeApiKey, showInputBox, getD_ne_of_not_falsy]

theorem ensureCredentials_frame (h : Host) (w : World) :
    (ensureCredentials h w).2.selectedDevice = w.selectedDevice ∧
    (ensureCredentials h w).2.editor = w.editor ∧
    (ensureCredentials h w).2.pollers = w.pollers ∧
    (ensureCredentials h w).2.nPick = w.nPick ∧
    (ensureCredentials h w).2.nSearch = w.nSearch ∧
    (ensureCredentials h w).2.nSubmit = w.nSubmit := by
  simp only [ensureCredentials]
  split_ifs <;> simp [emit, storeCompanyName, storeApiKey, showInputBox]

theorem ensureCredentials_observations (h : Host) (w : World) :
    offered (ensureCredentials h w).2 = offered w ∧
    searchFilters (ensureCredentials h w).2 = searchFilters w ∧
    httpRequests (ensureCredentials h w).2 = httpRequests w ∧
    posts (ensureCredentials h w).2 = posts w ∧
    pollGets (ensureCredentials h w).2 = pollGets w ∧
    timersStarted (ensureCredentials h w).2 = timersStarted w := by
  simp only [ensureCredentials]
  split_ifs <;>
    simp [emit, storeCompanyName, storeApiKey, showInputBox, offered, offeredIn, searchFilters,
      searchFiltersIn, httpRequests, isHttp, posts, postsIn, pollGets, pollGetsIn,
      timersStarted, timersStartedIn]

/-! ## One round of `fetchDevices` -/

theorem fetchDevices_fails (cfg : Settings) (h : Host) (fuel : Nat) (w : World)
    (searchBy searchTerm message : String) (hr : ReachesSearch h w searchBy searchTerm)
    (hs : h.search (ensureCredentials h w).2.nSearch = Reply.fails message) :
    fetchDevices cfg h (fuel + 1) w = Outcome.returned
      (emit (Effect.showErrorMessage ("Error fetching devices: " ++ message))
        (emit (Effect.consoleError message)
          (searchSent cfg (ensureCredentials h w).2 searchBy searchTerm))) := by
  obtain ⟨hc, hm, ht, hne⟩ := hr
  have hst := ensureCredentials_true h w hc
  simp [fetchDevices, hc, hst.1, hst.2, hm, ht, hne, hs, showQuickPick, showInputBox,
    searchSent, emit, axiosGetSearch]

theorem fetchDevices_empty (cfg : Settings) (h : Host) (fuel : Nat) (w : World)
    (searchBy searchTerm : String) (hr : ReachesSearch h w searchBy searchTerm)
    (hs : h.search (ensureCredentials h w).2.nSearch = Reply.ok []) :
    fetchDevices cfg h (fuel + 1) w = fetchDevices cfg h fuel
      (emit (Effect.showInformationMessage
        "No devices found matching your criteria. Please try again.")
        (searchSent cfg (ensureCredentials h w).2 searchBy searchTerm)) := by
  obtain ⟨hc, hm, ht, hne⟩ := hr
  have hst := ensureCredentials_true h w hc
  simp [fetchDevices, hc, hst.1, hst.2, hm, ht, hne, hs, showQuickPick, showInputBox,
    searchSent, emit, axiosGetSearch]

theorem fetchDevices_found (cfg : Settings) (h : Host) (fuel : Nat) (w : World)
    (searchBy searchTerm : String) (items : List Item)
    (hr : ReachesSearch h w searchBy searchTerm)
    (hs : h.search (ensureCredentials h w).2.nSearch = Reply.ok items) (hi : items ≠ []) :
    fetchDevices cfg h (fuel + 1) w = Outcome.returned
      (match picked (toDevices items) (h.quickPick ((ensureCredentials h w).2.nPick + 1)) with
       | some d =>
         globalStateUpdate (some d)
           (emit (Effect.showInformationMessage ("You selected: " ++ d.label))
             (showQuickPickDevices (toDevices items) "Select a device to run the script on"
               (searchSent cfg (ensureCredentials h w).2 searchBy searchTerm)))
       | none =>
         showQuickPickDevices (toDevices items) "Select a device to run the script on"
           (searchSent cfg (ensureCredentials h w).2 searchBy searchTerm)) := by
  obtain ⟨hc, hm, ht, hne⟩ := hr
  have hst := ensureCredentials_true h w hc
  simp only [fetchDevices, hc, hst.1, hst.2, hm, ht, hs, showQuickPick, showInputBox,
    searchSent, emit, toDevices, axiosGetSearch]
  simp [hne, hi]
  split <;> simp_all

/-! ## What a run adds to the trace -/

theorem ExtendsBy.same (p : Effect → Bool) (w : World) : ExtendsBy p w w :=
  ⟨[], rfl, by simp⟩

theorem ExtendsBy.chain {p : Effect → Bool} {a b c : World}
    (hab : ExtendsBy p a b) (hbc : ExtendsBy p b c) : ExtendsBy p a c := by
  obtain ⟨n1, h1, p1⟩ := hab
  obtain ⟨n2, h2, p2⟩ := hbc
  refine ⟨n2 ++ n1, by simp [h2, h1], ?_⟩
  intro e he
  rcases List.mem_append.mp he with he | he
  · exact p2 e he
  · exact p1 e he

theorem ExtendsBy.cons {p : Effect → Bool} {a b c : World} (e : Effect)
    (hab : ExtendsBy p a b) (hc : c.trace = e :: b.trace) (he : p e = true) :
    ExtendsBy p a c := by
  obtain ⟨n1, h1, p1⟩ := hab
  refine ⟨e :: n1, by simp [hc, h1], ?_⟩
  intro x hx
  rcases List.mem_cons.mp hx with hx | hx
  · exact hx ▸ he
  · exact p1 x hx

theorem ExtendsBy.mono {p q : Effect → Bool} {a b : World}
    (hpq : ∀ e, p e = true → q e = true) (hab : ExtendsBy p a b) : ExtendsBy q a b := by
  obtain ⟨n1, h1, p1⟩ := hab
  exact ⟨n1, h1, fun e he => hpq e (p1 e he)⟩

theorem ensureCredentials_extends (h : Host) (w : World) :
    ExtendsBy isCredentialEffect w (ensureCredentials h w).2 := by
  simp only [ensureCredentials]
  split_ifs <;>
    first
    | exact ⟨[], rfl, by simp⟩
    | exact ⟨[_, _], rfl, by simp [isCredentialEffect]⟩
    | exact ⟨[_, _, _, _], rfl, by simp [isCredentialEffect]⟩

theorem Lookup.refl (w : World) : Lookup w w :=
  ⟨ExtendsBy.same _ _, rfl, rfl, rfl⟩

theorem Lookup.trans {a b c : World} (hab : Lookup a b) (hbc : Lookup b c) : Lookup a c :=
  ⟨hab.added.chain hbc.added, hbc.editor.trans hab.editor, hbc.pollers.trans hab.pollers,
    hbc.nSubmit.trans hab.nSubmit⟩

theorem Lookup.step {a b c : World} (e : Effect) (hab : Lookup a b)
    (ht : c.trace = e :: b.trace) (he : isLookupEffect e = true)
    (h1 : c.editor = b.editor) (h2 : c.pollers = b.pollers) (h3 : c.nSubmit = b.nSubmit) :
    Lookup a c :=
  ⟨hab.added.cons e ht he, h1.trans hab.editor, h2.trans hab.pollers, h3.trans hab.nSubmit⟩

theorem Lookup.emit {a b : World} (e : Effect) (he : isLookupEffect e = true)
    (hab : Lookup a b) : Lookup a (emit e b) :=
  hab.step e rfl he rfl rfl rfl

theorem Lookup.showInputBox {a b : World} (prompt placeHolder : String) (password : Bool)
    (hab : Lookup a b) : Lookup a (showInputBox prompt placeHolder password b) :=
  hab.step _ rfl rfl rfl rfl rfl

theorem Lookup.showQuickPick {a b : World} (items : List String) (placeHolder : String)
    (hab : Lookup a b) : Lookup a (showQuickPick items placeHolder b) :=
  hab.step _ rfl rfl rfl rfl rfl

theorem Lookup.showQuickPickDevices {a b : World} (items : List Device) (placeHolder : String)
    (hab : Lookup a b) : Lookup a (showQuickPickDevices items placeHolder b) :=
  hab.step _ rfl rfl rfl rfl rfl

theorem Lookup.axiosGetSearch {a b : World} (url : String) (headers : Headers) (params : Params)
    (hab : Lookup a b) : Lookup a (axiosGetSearch url headers params b) :=
  hab.step _ rfl rfl rfl rfl rfl

theorem Lookup.globalStateUpdate {a b : World} (value : Option Device)
    (hab : Lookup a b) : Lookup a (globalStateUpdate value b) :=
  hab.step _ rfl rfl rfl rfl rfl

theorem ensureCredentials_lookup (h : Host) (w : World) :
    Lookup w (ensureCredentials h w).2 := by
  have hf := ensureCredentials_frame h w
  exact ⟨(ensureCredentials_extends h w).mono
      (by intro e; cases e <;> simp [isCredentialEffect, isLookupEffect]),
    hf.2.1, hf.2.2.1, hf.2.2.2.2.2⟩

theorem fetchDevices_lookup (cfg : Settings) (h : Host) :
    ∀ (fuel : Nat) (w : World), Lookup w (fetchDevices cfg h fuel w).world := by
  intro fuel
  induction fuel with
  | zero => intro w; exact Lookup.refl _
  | succ n ih =>
    intro w
    have hec := ensureCredentials_lookup h w
    simp only [fetchDevices]
    generalize ensureCredentials h w = ec at hec ⊢
    split
    · exact hec
    split
    · exact hec.emit _ (by rfl)
    split
    · exact (hec.showQuickPick _ _).emit _ (by rfl)
    split
    · exact ((hec.showQuickPick _ _).showInputBox _ _ _).emit _ (by rfl)
    split
    · exact (((((hec.showQuickPick _ _).showInputBox _ _ _).axiosGetSearch _ _ _).emit _
        (by rfl)).emit _ (by rfl))
    split
    · exact (((((hec.showQuickPick _ _).showInputBox _ _ _).axiosGetSearch _ _ _).emit _ (by rfl)).trans
        (ih _))
    split
    · exact (((((hec.showQuickPick _ _).showInputBox _ _ _).axiosGetSearch _ _ _).showQuickPickDevices
        _ _).emit _ (by rfl)).globalStateUpdate _
    · exact (((hec.showQuickPick _ _).showInputBox _ _ _).axiosGetSearch _ _ _).showQuickPickDevices
        _ _

/-! ## Observations under added effects -/

theorem searchFiltersIn_append (a b : List Effect) :
    searchFiltersIn (a ++ b) = searchFiltersIn a ++ searchFiltersIn b := by
  induction a with
  | nil => rfl
  | cons e es ih =>
    cases e <;> simp [searchFiltersIn, ih]
    rename_i p
    cases p <;> simp [searchFiltersIn, ih]

theorem postsIn_lookup (new t : List Effect) (hn : ∀ e ∈ new, isLookupEffect e = true) :
    postsIn (new ++ t) = postsIn t := by
  induction new with
  | nil => rfl
  | cons e es ih =>
    have he := hn e (List.mem_cons_self _ _)
    have ih' := ih (fun x hx => hn x (List.mem_cons_of_mem _ hx))
    cases e <;> simp_all [postsIn, isLookupEffect]

theorem pollGetsIn_lookup (new t : List Effect) (hn : ∀ e ∈ new, isLookupEffect e = true) :
    pollGetsIn (new ++ t) = pollGetsIn t := by
  induction new with
  | nil => rfl
  | cons e es ih =>
    have he := hn e (List.mem_cons_self _ _)
    have ih' := ih (fun x hx => hn x (List.mem_cons_of_mem _ hx))
    cases e <;> simp_all [pollGetsIn, isLookupEffect]
    rename_i p
    cases p <;> simp_all [pollGetsIn, isLookupEffect]

theorem timersStartedIn_lookup (new t : List Effect)
    (hn : ∀ e ∈ new, isLookupEffect e = true) :
    timersStartedIn (new ++ t) = timersStartedIn t := by
  induction new with
  | nil => rfl
  | cons e es ih =>
    have he := hn e (List.mem_cons_self _ _)
    have ih' := ih (fun x hx => hn x (List.mem_cons_of_mem _ hx))
    cases e <;> simp_all [timersStartedIn, isLookupEffect]

theorem Lookup.posts {w w' : World} (hl : Lookup w w') : posts w' = posts w := by
  obtain ⟨new, ht, hn⟩ := hl.added
  unfold LogicMonitor.posts
  rw [ht, postsIn_lookup new w.trace hn]

theorem Lookup.pollGets {w w' : World} (hl : Lookup w w') : pollGets w' = pollGets w := by
  obtain ⟨new, ht, hn⟩ := hl.added
  unfold LogicMonitor.pollGets
  rw [ht, pollGetsIn_lookup new w.trace hn]

theorem Lookup.timersStarted {w w' : World} (hl : Lookup w w') :
    timersStarted w' = timersStarted w := by
  obtain ⟨new, ht, hn⟩ := hl.added
  unfold LogicMonitor.timersStarted
  rw [ht, timersStartedIn_lookup new w.trace hn]

theorem Lookup.searchFilters {w w' : World} (hl : Lookup w w') :
    ∃ later, searchFilters w' = later ++ searchFilters w := by
  obtain ⟨new, ht, _⟩ := hl.added
  exact ⟨searchFiltersIn new, by simp [LogicMonitor.searchFilters, ht, searchFiltersIn_append]⟩

theorem searchFilters_searchSent (cfg : Settings) (w1 : World) (searchBy searchTerm : String) :
    searchFilters (searchSent cfg w1 searchBy searchTerm) =
      queryParam searchBy searchTerm :: searchFilters w1 := rfl

theorem offered_searchSent (cfg : Settings) (w1 : World) (searchBy searchTerm : String) :
    offered (searchSent cfg w1 searchBy searchTerm) = offered w1 := rfl

theorem ReachesSearch.mode_cases {h : Host} {w : World} {searchBy searchTerm : String}
    (hr : ReachesSearch h w searchBy searchTerm) : searchBy = "By IP" ∨ searchBy = "By Name" := by
  have hm := hr.mode
  unfold picked at hm
  split at hm
  · simp at hm
  · rename_i i _
    match i with
    | 0 => simp at hm; exact Or.inl hm.symm
    | 1 => simp at hm; exact Or.inr hm.symm
    | k + 2 => simp at hm

/-! ## Claims on the device lookup -/

/-- C1: when a round of `fetchDevices` reaches its search and the response has
N >= 1 items, the list offered for selection has exactly N entries, in the
order of the response, and entry i has label = displayName, id = id and
collectorId = currentCollectorId of item i. -/
theorem fetchDevices_offers_mapped_items (cfg : Settings) (h : Host) (fuel : Nat) (w : World)
    (searchBy searchTerm : String) (items : List Item)
    (hr : ReachesSearch h w searchBy searchTerm)
    (hs : h.search (ensureCredentials h w).2.nSearch = Reply.ok items)
    (hN : 1 ≤ items.length) :
    ∃ devices : List Device,
      offered (fetchDevices cfg h (fuel + 1) w).world = devices :: offered w ∧
      devices.length = items.length ∧
      ∀ (i : Nat) (item : Item), items[i]? = some item →
        devices[i]? = some { label := item.displayName, id := item.id,
                             collectorId := item.currentCollectorId } := by
  have hi : items ≠ [] := by
    intro h0; simp [h0] at hN
  refine ⟨toDevices items, ?_, by simp [toDevices], ?_⟩
  · rw [fetchDevices_found cfg h fuel w searchBy searchTerm items hr hs hi]
    have ho := (ensureCredentials_observations h w).1
    split <;>
      simp [Outcome.world, offered, offeredIn, globalStateUpdate, emit, showQuickPickDevices] <;>
      exact ho
  · intro i item hget
    simp [toDevices, hget]

/-- C2: the search request of a round of `fetchDevices` carries as `filter`
exactly name~"t" when the mode picked is 'By IP' and displayName~"t" when it
is 'By Name', for the term t as entered, whatever characters it contains; it
is the first search request the run adds. -/
theorem fetchDevices_filter (cfg : Settings) (h : Host) (fuel : Nat) (w : World)
    (searchBy searchTerm : String) (hr : ReachesSearch h w searchBy searchTerm) :
    ∃ (later : List String) (filter : String),
      searchFilters (fetchDevices cfg h (fuel + 1) w).world = later ++ filter :: searchFilters w ∧
      (searchBy = "By IP" ∨ searchBy = "By Name") ∧
      (searchBy = "By IP" → filter = "name~\"" ++ searchTerm ++ "\"") ∧
      (searchBy = "By Name" → filter = "displayName~\"" ++ searchTerm ++ "\"") := by
  have hsf := (ensureCredentials_observations h w).2.1
  have hq : (searchBy = "By IP" → queryParam searchBy searchTerm = "name~\"" ++ searchTerm ++ "\"") ∧
      (searchBy = "By Name" →
        queryParam searchBy searchTerm = "displayName~\"" ++ searchTerm ++ "\"") := by
    constructor
    · intro hb; simp [queryParam, hb]
    · intro hb; subst hb; simp [queryParam]
  cases hs : h.search (ensureCredentials h w).2.nSearch with
  | fails message =>
    refine ⟨[], queryParam searchBy searchTerm, ?_, hr.mode_cases, hq⟩
    rw [fetchDevices_fails cfg h fuel w searchBy searchTerm message hr hs]
    show searchFilters (searchSent cfg _ searchBy searchTerm) = _
    rw [searchFilters_searchSent, hsf]; rfl
  | ok items =>
    by_cases hi : items = []
    · subst hi
      rw [fetchDevices_empty cfg h fuel w searchBy searchTerm hr hs]
      obtain ⟨later, hl⟩ := (fetchDevices_lookup cfg h fuel
        (emit (Effect.showInformationMessage
          "No devices found matching your criteria. Please try again.")
          (searchSent cfg (ensureCredentials h w).2 searchBy searchTerm))).searchFilters
      refine ⟨later, queryParam searchBy searchTerm, ?_, hr.mode_cases, hq⟩
      rw [hl]
      show later ++ searchFilters (searchSent cfg _ searchBy searchTerm) = _
      rw [searchFilters_searchSent, hsf]
    · refine ⟨[], queryParam searchBy searchTerm, ?_, hr.mode_cases, hq⟩
      rw [fetchDevices_found cfg h fuel w searchBy searchTerm items hr hs hi]
      have h1 := searchFilters_searchSent cfg (ensureCredentials h w).2 searchBy searchTerm
      rw [hsf] at h1
      split <;> exact h1

theorem ensureCredentials_modePrompts (h : Host) (w : World) :
    modePrompts (ensureCredentials h w).2 = modePrompts w := by
  simp only [ensureCredentials]
  split_ifs <;>
    simp [emit, storeCompanyName, storeApiKey, showInputBox, modePrompts, modePromptsIn]

theorem EmptyThenFound.reaches {h : Host} {w : World} {m : Nat} {items : List Item}
    (he : EmptyThenFound h w m items) :
    ∃ searchBy searchTerm, ReachesSearch h w searchBy searchTerm := by
  obtain ⟨searchBy, hm⟩ := he.modes 0 (Nat.zero_le _)
  obtain ⟨searchTerm, ht, hne⟩ := he.terms 0 (Nat.zero_le _)
  exact ⟨searchBy, searchTerm, he.credentials, by simpa using hm, by simpa using ht, hne⟩

theorem EmptyThenFound.next {h : Host} {w : World} {m : Nat} {items : List Item}
    (cfg : Settings) (searchBy searchTerm : String)
    (he : EmptyThenFound h w (m + 1) items) :
    EmptyThenFound h
      (emit (Effect.showInformationMessage
        "No devices found matching your criteria. Please try again.")
        (searchSent cfg (ensureCredentials h w).2 searchBy searchTerm)) m items := by
  have hst := ensureCredentials_true h w he.credentials
  have heq : ensureCredentials h
      (emit (Effect.showInformationMessage
        "No devices found matching your criteria. Please try again.")
        (searchSent cfg (ensureCredentials h w).2 searchBy searchTerm)) =
      (true, emit (Effect.showInformationMessage
        "No devices found matching your criteria. Please try again.")
        (searchSent cfg (ensureCredentials h w).2 searchBy searchTerm)) :=
    ensureCredentials_stored h _ hst.1 hst.2
  refine ⟨by rw [heq], ?_, ?_, ?_, ?_, he.nonempty⟩
  · intro j hj
    rw [heq]
    have := he.modes (j + 1) (by omega)
    simpa [emit, searchSent, axiosGetSearch, showInputBox, showQuickPick, Nat.add_assoc,
      Nat.add_comm 1 j] using this
  · intro j hj
    rw [heq]
    have := he.terms (j + 1) (by omega)
    simpa [emit, searchSent, axiosGetSearch, showInputBox, showQuickPick, Nat.add_assoc,
      Nat.add_comm 1 j] using this
  · intro j hj
    rw [heq]
    have := he.empties (j + 1) (by omega)
    simpa [emit, searchSent, axiosGetSearch, showInputBox, showQuickPick, Nat.add_assoc,
      Nat.add_comm 1 j] using this
  · rw [heq]
    have := he.found
    simpa [emit, searchSent, axiosGetSearch, showInputBox, showQuickPick, Nat.add_assoc,
      Nat.add_comm 1 m] using this

theorem EmptyThenFound.next_stored {h : Host} {w : World} {m : Nat} {items : List Item}
    (cfg : Settings) (searchBy searchTerm : String)
    (he : EmptyThenFound h w m items) :
    ensureCredentials h
      (emit (Effect.showInformationMessage
        "No devices found matching your criteria. Please try again.")
        (searchSent cfg (ensureCredentials h w).2 searchBy searchTerm)) =
      (true, emit (Effect.showInformationMessage
        "No devices found matching your criteria. Please try again.")
        (searchSent cfg (ensureCredentials h w).2 searchBy searchTerm)) :=
  have hst := ensureCredentials_true h w he.credentials
  ensureCredentials_stored h _ hst.1 hst.2

/-- C10: an empty search response makes `fetchDevices` enter itself again from
the top instead of returning; and when the first m searches return no items
and search m+1 returns a non-empty list, the run returns for every budget of at
least m+1 entries, after exactly m+1 search requests, m+1 mode prompts and m+1
term prompts, having offered the devices of search m+1, while a budget of m
entries or fewer does not suffice. -/
theorem fetchDevices_retries_until_found (cfg : Settings) (h : Host) (m : Nat) :
    (∀ (w : World) (searchBy searchTerm : String) (fuel : Nat),
      ReachesSearch h w searchBy searchTerm →
      h.search (ensureCredentials h w).2.nSearch = Reply.ok [] →
      fetchDevices cfg h (fuel + 1) w = fetchDevices cfg h fuel
        (emit (Effect.showInformationMessage
          "No devices found matching your criteria. Please try again.")
          (searchSent cfg (ensureCredentials h w).2 searchBy searchTerm))) ∧
    (∀ (w : World) (items : List Item) (extra : Nat), EmptyThenFound h w m items →
      (∃ w', fetchDevices cfg h (m + 1 + extra) w = Outcome.returned w' ∧
        (searchFilters w').length = (searchFilters w).length + (m + 1) ∧
        modePrompts w' = modePrompts w + (m + 1) ∧
        w'.nInput = (ensureCredentials h w).2.nInput + (m + 1) ∧
        offered w' = toDevices items :: offered w) ∧
      (∀ fuel, fuel ≤ m → ∃ w', fetchDevices cfg h fuel w = Outcome.unfinished w')) := by
  refine ⟨fun w searchBy searchTerm fuel hr hs =>
    fetchDevices_empty cfg h fuel w searchBy searchTerm hr hs, ?_⟩
  induction m with
  | zero =>
    intro w items extra he
    obtain ⟨searchBy, searchTerm, hr⟩ := he.reaches
    have hs : h.search (ensureCredentials h w).2.nSearch = Reply.ok items := by
      simpa using he.found
    have hobs := ensureCredentials_observations h w
    have hmp := ensureCredentials_modePrompts h w
    refine ⟨?_, ?_⟩
    · rw [Nat.zero_add, Nat.add_comm 1 extra,
        fetchDevices_found cfg h extra w searchBy searchTerm items hr hs he.nonempty]
      refine ⟨_, rfl, ?_⟩
      split
      · refine ⟨?_, ?_, rfl, ?_⟩
        · show (searchFilters (searchSent cfg _ searchBy searchTerm)).length = _
          rw [searchFilters_searchSent, hobs.2.1]; rfl
        · show modePrompts (ensureCredentials h w).2 + 1 = _
          rw [hmp]
        · show toDevices items :: offered (ensureCredentials h w).2 = _
          rw [hobs.1]
      · refine ⟨?_, ?_, rfl, ?_⟩
        · show (searchFilters (searchSent cfg _ searchBy searchTerm)).length = _
          rw [searchFilters_searchSent, hobs.2.1]; rfl
        · show modePrompts (ensureCredentials h w).2 + 1 = _
          rw [hmp]
        · show toDevices items :: offered (ensureCredentials h w).2 = _
          rw [hobs.1]
    · intro fuel hf
      have : fuel = 0 := by omega
      subst this
      exact ⟨w, rfl⟩
  | succ k ih =>
    intro w items extra he
    obtain ⟨searchBy, searchTerm, hr⟩ := he.reaches
    have hs : h.search (ensureCredentials h w).2.nSearch = Reply.ok [] := by
      simpa using he.empties 0 (Nat.succ_pos _)
    have hobs := ensureCredentials_observations h w
    have hmp := ensureCredentials_modePrompts h w
    have hnext := he.next cfg searchBy searchTerm
    have hstored := he.next_stored cfg searchBy searchTerm
    obtain ⟨⟨w', hw', hlen, hmode, hin, hoff⟩, hun⟩ := ih _ items extra hnext
    refine ⟨?_, ?_⟩
    · refine ⟨w', ?_, ?_, ?_, ?_, ?_⟩
      · have : k + 1 + 1 + extra = (k + 1 + extra) + 1 := by omega
        rw [this, fetchDevices_empty cfg h _ w searchBy searchTerm hr hs]
        exact hw'
      · rw [hlen]
        show (searchFilters (searchSent cfg _ searchBy searchTerm)).length + (k + 1) = _
        rw [searchFilters_searchSent, hobs.2.1]
        simp only [List.length_cons]
        omega
      · rw [hmode]
        show modePrompts (ensureCredentials h w).2 + 1 + (k + 1) = _
        rw [hmp]
        omega
      · rw [hin, hstored]
        show (ensureCredentials h w).2.nInput + 1 + (k + 1) = _
        omega
      · rw [hoff]
        show toDevices items :: offered (ensureCredentials h w).2 = _
        rw [hobs.1]
    · intro fuel hf
      cases fuel with
      | zero => exact ⟨w, rfl⟩
      | succ f =>
        rw [fetchDevices_empty cfg h f w searchBy searchTerm hr hs]
        exact hun f (by omega)

theorem ensureCredentials_false_head (h : Host) (w : World)
    (hf : (ensureCredentials h w).1 = false) :
    ∃ message, (ensureCredentials h w).2.trace.head? = some (Effect.showErrorMessage message) := by
  revert hf
  simp only [ensureCredentials]
  split_ifs <;> simp [emit]

theorem fetchDevices_selected (cfg : Settings) (h : Host) :
    ∀ (fuel : Nat) (w : World) (d : Device),
      Selects (fetchDevices cfg h fuel w) d →
      (fetchDevices cfg h fuel w).world.selectedDevice = some d := by
  intro fuel
  induction fuel with
  | zero =>
    intro w d hsel
    obtain ⟨w', hw', _⟩ := hsel
    simp [fetchDevices] at hw'
  | succ n ih =>
    intro w d
    have hfalse := ensureCredentials_false_head h w
    simp only [fetchDevices]
    generalize ensureCredentials h w = ec at hfalse ⊢
    split
    · rename_i hc
      obtain ⟨message, hm⟩ := hfalse hc
      rintro ⟨w', hw', hh⟩
      cases hw'
      rw [hm] at hh
      simp at hh
    split
    · rintro ⟨w', hw', hh⟩
      cases hw'
      simp [emit] at hh
    split
    · rintro ⟨w', hw', hh⟩
      cases hw'
      simp [emit] at hh
    split
    · rintro ⟨w', hw', hh⟩
      cases hw'
      simp [emit] at hh
    split
    · rintro ⟨w', hw', hh⟩
      cases hw'
      simp [emit] at hh
    split
    · exact ih _ d
    split
    · rintro ⟨w', hw', hh⟩
      cases hw'
      simp [globalStateUpdate] at hh
      simp [Outcome.world, globalStateUpdate, hh]
    · rintro ⟨w', hw', hh⟩
      cases hw'
      simp [showQuickPickDevices] at hh

/-- C9: over the slot `selectedDevice`, a run of `fetchDevices` that selects A
followed by a run that selects B leaves exactly B as the current device,
whatever the slot held before; `clearSelectedDevice` leaves the slot empty from
every state, and clearing twice leaves the same slot as clearing once. -/
theorem select_overwrites_and_clear_empties (cfg : Settings) (h : Host) (fuel1 fuel2 : Nat)
    (w : World) (A B : Device)
    (hA : Selects (fetchDevices cfg h fuel1 w) A)
    (hB : Selects (fetchDevices cfg h fuel2 (fetchDevices cfg h fuel1 w).world) B) :
    (fetchDevices cfg h fuel1 w).world.selectedDevice = some A ∧
    (fetchDevices cfg h fuel2 (fetchDevices cfg h fuel1 w).world).world.selectedDevice = some B ∧
    (∀ v : World, (clearSelectedDevice v).selectedDevice = none) ∧
    (∀ v : World, (clearSelectedDevice (clearSelectedDevice v)).selectedDevice =
      (clearSelectedDevice v).selectedDevice) :=
  ⟨fetchDevices_selected cfg h fuel1 w A hA,
    fetchDevices_selected cfg h fuel2 _ B hB,
    fun _ => rfl, fun _ => rfl⟩

/-! ## The shape of a script run -/

theorem runScriptOnDevice_shape (cfg : Settings) (h : Host) (fuel : Nat) (w : World) :
    Lookup w (runScriptOnDevice cfg h fuel w).world ∨
    ∃ d script, Submitted cfg h w (resolvedOnDevice cfg h fuel (ensureCredentials h w).2)
      (runScriptOnDevice cfg h fuel w) d script := by
  have hec := ensureCredentials_lookup h w
  have hfd := fetchDevices_lookup cfg h fuel (ensureCredentials h w).2
  simp only [runScriptOnDevice]
  split
  · exact Or.inl hec
  rename_i hcred
  split
  · exact Or.inl (hec.emit _ (by rfl))
  split
  · exact Or.inl (hec.emit _ (by rfl))
  rename_i script hscript
  split
  · exact Or.inl (hec.emit _ (by rfl))
  rename_i hne
  have hw2 : Lookup w (resolvedOnDevice cfg h fuel (ensureCredentials h w).2) := by
    unfold resolvedOnDevice
    split
    · exact hec
    · exact hec.trans hfd
  split
  · rename_i w2 hres
    left
    have : w2 = resolvedOnDevice cfg h fuel (ensureCredentials h w).2 := by
      unfold resolvedOnDevice
      split at hres
      · simp at hres
      · rw [hres]; rfl
    rw [this]
    exact hw2
  · rename_i w2 hres
    have hw2eq : w2 = resolvedOnDevice cfg h fuel (ensureCredentials h w).2 := by
      unfold resolvedOnDevice
      split at hres
      · simp at hres; rw [← hres]
      · rw [hres]; rfl
    subst hw2eq
    split
    · exact Or.inl (hw2.emit _ (by rfl))
    · rename_i d hd
      right
      refine ⟨d, script, by simpa using hcred, ?_, hne, hw2, hd, ?_⟩
      · rw [← hec.editor]; exact hscript
      · rw [hw2.nSubmit]
        unfold afterSubmit submitted
        split
        · rfl
        · split <;> rfl

theorem runScriptOnNewDevice_shape (cfg : Settings) (h : Host) (fuel : Nat) (w : World) :
    Lookup w (runScriptOnNewDevice cfg h fuel w).world ∨
    ∃ d script, Submitted cfg h w (fetchDevices cfg h fuel (ensureCredentials h w).2).world
      (runScriptOnNewDevice cfg h fuel w) d script := by
  have hec := ensureCredentials_lookup h w
  have hfd := fetchDevices_lookup cfg h fuel (ensureCredentials h w).2
  simp only [runScriptOnNewDevice]
  split
  · exact Or.inl hec
  rename_i hcred
  split
  · exact Or.inl (hec.emit _ (by rfl))
  split
  · exact Or.inl (hec.emit _ (by rfl))
  rename_i script hscript
  split
  · exact Or.inl (hec.emit _ (by rfl))
  rename_i hne
  split
  · rename_i w2 hres
    left
    rw [hres] at hfd
    exact hec.trans hfd
  · rename_i w2 hres
    rw [hres] at hfd ⊢
    have hw2 : Lookup w w2 := hec.trans hfd
    split
    · exact Or.inl (hw2.emit _ (by rfl))
    · rename_i d hd
      right
      refine ⟨d, script, by simpa using hcred, ?_, hne, hw2, hd, ?_⟩
      · rw [← hec.editor]; exact hscript
      · rw [hw2.nSubmit]
        unfold afterSubmit submitted
        split
        · rfl
        · split <;> rfl

/-! ## Claims on script submission -/

theorem runScript_empty_editor (cfg : Settings) (h : Host) (fuel : Nat) (w : World)
    (he : w.editor = some "") :
    ((ensureCredentials h w).1 = false →
      runScriptOnDevice cfg h fuel w = Outcome.returned (ensureCredentials h w).2 ∧
      runScriptOnNewDevice cfg h fuel w = Outcome.returned (ensureCredentials h w).2) ∧
    ((ensureCredentials h w).1 = true →
      runScriptOnDevice cfg h fuel w = Outcome.returned
        (emit (Effect.showErrorMessage "No script found in the active editor!")
          (ensureCredentials h w).2) ∧
      runScriptOnNewDevice cfg h fuel w = Outcome.returned
        (emit (Effect.showErrorMessage "No script found in the active editor!")
          (ensureCredentials h w).2)) := by
  have hed : (ensureCredentials h w).2.editor = some "" := by
    rw [(ensureCredentials_frame h w).2.1]; exact he
  constructor
  · intro hf
    simp [runScriptOnDevice, runScriptOnNewDevice, hf]
  · intro ht
    have hst := ensureCredentials_true h w ht
    simp [runScriptOnDevice, runScriptOnNewDevice, ht, hst.1, hst.2, hed]

theorem dropWhile_not_newline (l1 l2 : List Char) (hl : ∀ c ∈ l1, c ≠ '\n') :
    (l1 ++ '\n' :: l2).dropWhile (fun c => c != '\n') = '\n' :: l2 := by
  induction l1 with
  | nil => simp [List.dropWhile]
  | cons c cs ih =>
    have hc : c ≠ '\n' := hl c (List.mem_cons_self _ _)
    have := ih (fun x hx => hl x (List.mem_cons_of_mem _ hx))
    rw [List.cons_append, List.dropWhile_cons]
    simp [hc, this]

theorem textAfterNewline_cmdline (d : Device) (script : String)
    (hid : ∀ c ∈ d.id.data, c ≠ '\n') :
    textAfterNewline (cmdline d script) = " " ++ script := by
  have hdata : (cmdline d script).data =
      ("!groovy hostId=".data ++ d.id.data ++ [' ']) ++ '\n' :: (' ' :: script.data) := by
    simp [cmdline, String.data_append]
  have hpre : ∀ c ∈ "!groovy hostId=".data ++ d.id.data ++ [' '], c ≠ '\n' := by
    intro c hc
    simp only [List.mem_append, List.mem_singleton] at hc
    rcases hc with (hc | hc) | hc
    · revert c; decide
    · exact hid c hc
    · subst hc; decide
  unfold textAfterNewline
  rw [hdata, dropWhile_not_newline _ _ hpre]
  rfl

theorem afterSubmit_frame (cfg : Settings) (companyName apiKey : Option String) (d : Device)
    (reply : Reply (Option String)) (w3 : World) :
    (afterSubmit cfg companyName apiKey d reply w3).selectedDevice = w3.selectedDevice ∧
    posts (afterSubmit cfg companyName apiKey d reply w3) = posts w3 := by
  unfold afterSubmit
  split
  · exact ⟨rfl, rfl⟩
  · split <;> exact ⟨rfl, rfl⟩

/-- C8 (amended): whenever a run-script command sends its submission, for the
device d of the slot and the editor text s, the `cmdline` of the request body
is the directive text, the id of d, a space, a newline, a space and then s
verbatim; when the id holds no newline, the text after the first newline of
`cmdline` is a space followed by s. -/
theorem cmdline_shape (cfg : Settings) (h : Host) (fuel : Nat) (w : World) (out : Outcome)
    (hout : out = runScriptOnDevice cfg h fuel w ∨ out = runScriptOnNewDevice cfg h fuel w)
    (hsent : posts out.world ≠ posts w) :
    ∃ (d : Device) (s url : String),
      out.world.selectedDevice = some d ∧ w.editor = some s ∧ s ≠ "" ∧
      posts out.world = (url, "!groovy hostId=" ++ d.id ++ " \n " ++ s) :: posts w ∧
      ((∀ c ∈ d.id.data, c ≠ '\n') →
        textAfterNewline ("!groovy hostId=" ++ d.id ++ " \n " ++ s) = " " ++ s) := by
  have key : ∀ w2 d s, Submitted cfg h w w2 out d s →
      ∃ (d : Device) (s url : String),
        out.world.selectedDevice = some d ∧ w.editor = some s ∧ s ≠ "" ∧
        posts out.world = (url, "!groovy hostId=" ++ d.id ++ " \n " ++ s) :: posts w ∧
        ((∀ c ∈ d.id.data, c ≠ '\n') →
          textAfterNewline ("!groovy hostId=" ++ d.id ++ " \n " ++ s) = " " ++ s) := by
    intro w2 d s hs
    have hfr := afterSubmit_frame cfg (ensureCredentials h w).2.companyName
      (ensureCredentials h w).2.apiKey d (h.submit w.nSubmit)
      (submitted cfg (ensureCredentials h w).2.companyName (ensureCredentials h w).2.apiKey d s w2)
    refine ⟨d, s, baseUrl cfg ((ensureCredentials h w).2.companyName.getD "") ++
      "/debug/?collectorId=" ++ d.collectorId, ?_, hs.editor, hs.nonempty, ?_,
      fun hid => textAfterNewline_cmdline d s hid⟩
    · rw [hs.result]
      exact hfr.1.trans hs.device
    · rw [hs.result]
      refine hfr.2.trans ?_
      show (_, cmdline d s) :: posts w2 = _
      rw [hs.lookup.posts]
      rfl
  rcases hout with hout | hout
  · rcases runScriptOnDevice_shape cfg h fuel w with hl | ⟨d, s, hs⟩
    · exact absurd (hout ▸ hl.posts) hsent
    · exact key _ d s (hout ▸ hs)
  · rcases runScriptOnNewDevice_shape cfg h fuel w with hl | ⟨d, s, hs⟩
    · exact absurd (hout ▸ hl.posts) hsent
    · exact key _ d s (hout ▸ hs)

/-- C7: when the reply to the submission has no sessionId (absent or empty),
a run-script command that sent the submission returns with the error 'Failed
to retrieve sessionId for script execution.' as its last effect, and no poller
is started: no timer is registered and no poll request is sent. -/
theorem no_sessionId_never_polls (cfg : Settings) (h : Host) (fuel : Nat) (w : World)
    (out : Outcome) (sessionId : Option String)
    (hout : out = runScriptOnDevice cfg h fuel w ∨ out = runScriptOnNewDevice cfg h fuel w)
    (hsent : posts out.world ≠ posts w)
    (hreply : h.submit w.nSubmit = Reply.ok sessionId) (hno : falsy sessionId = true) :
    (∃ w', out = Outcome.returned w' ∧ w'.trace.head? = some
      (Effect.showErrorMessage "Failed to retrieve sessionId for script execution.")) ∧
    out.world.pollers = w.pollers ∧
    timersStarted out.world = timersStarted w ∧
    pollGets out.world = pollGets w := by
  have key : ∀ w2 d s, Submitted cfg h w w2 out d s →
      (∃ w', out = Outcome.returned w' ∧ w'.trace.head? = some
        (Effect.showErrorMessage "Failed to retrieve sessionId for script execution.")) ∧
      out.world.pollers = w.pollers ∧
      timersStarted out.world = timersStarted w ∧
      pollGets out.world = pollGets w := by
    intro w2 d s hs
    have hres := hs.result
    rw [hreply] at hres
    simp only [afterSubmit, hno, if_true] at hres
    rw [hres]
    refine ⟨⟨_, rfl, rfl⟩, hs.lookup.pollers, ?_, ?_⟩
    · exact hs.lookup.timersStarted
    · exact hs.lookup.pollGets
  rcases hout with hout | hout
  · rcases runScriptOnDevice_shape cfg h fuel w with hl | ⟨d, s, hs⟩
    · exact absurd (hout ▸ hl.posts) hsent
    · exact key _ d s (hout ▸ hs)
  · rcases runScriptOnNewDevice_shape cfg h fuel w with hl | ⟨d, s, hs⟩
    · exact absurd (hout ▸ hl.posts) hsent
    · exact key _ d s (hout ▸ hs)

/-- C6 (amended): with an empty editor text the run-script commands send no
HTTP request at all; when `ensureCredentials` succeeds they return with the
error 'No script found in the active editor!' as their last effect, and when it
fails they return right after it, with its own error as the last effect. -/
theorem empty_script_sends_nothing (cfg : Settings) (h : Host) (fuel : Nat) (w : World)
    (he : w.editor = some "") :
    httpRequests (runScriptOnDevice cfg h fuel w).world = httpRequests w ∧
    httpRequests (runScriptOnNewDevice cfg h fuel w).world = httpRequests w ∧
    ((ensureCredentials h w).1 = true →
      ∃ w', runScriptOnDevice cfg h fuel w = Outcome.returned w' ∧
        runScriptOnNewDevice cfg h fuel w = Outcome.returned w' ∧
        w'.trace.head? = some (Effect.showErrorMessage "No script found in the active editor!")) ∧
    ((ensureCredentials h w).1 = false →
      ∃ w' message, runScriptOnDevice cfg h fuel w = Outcome.returned w' ∧
        runScriptOnNewDevice cfg h fuel w = Outcome.returned w' ∧
        w'.trace.head? = some (Effect.showErrorMessage message) ∧
        (message = "Company name is required!" ∨ message = "API key is required!")) := by
  have hrun := runScript_empty_editor cfg h fuel w he
  have hobs := (ensureCredentials_observations h w).2.2.1
  cases hc : (ensureCredentials h w).1 with
  | false =>
    obtain ⟨h1, h2⟩ := hrun.1 hc
    refine ⟨by rw [h1]; exact hobs, by rw [h2]; exact hobs, by simp, ?_⟩
    intro _
    have hmsg : ∃ message,
        (ensureCredentials h w).2.trace.head? = some (Effect.showErrorMessage message) ∧
        (message = "Company name is required!" ∨ message = "API key is required!") := by
      revert hc
      simp only [ensureCredentials]
      split_ifs <;> simp [emit]
    obtain ⟨message, hm1, hm2⟩ := hmsg
    exact ⟨_, message, h1, h2, hm1, hm2⟩
  | true =>
    obtain ⟨h1, h2⟩ := hrun.2 hc
    refine ⟨by rw [h1]; exact hobs, by rw [h2]; exact hobs, ?_, by simp⟩
    intro _
    exact ⟨_, h1, h2, rfl⟩

/-! ## The poller -/

theorem jsTrim_eq_empty_iff (s : String) :
    jsTrim s = "" ↔ s.data.all isJsWhitespace = true := by
  unfold jsTrim
  constructor
  · intro h
    have h1 : ((s.data.dropWhile isJsWhitespace).reverse.dropWhile isJsWhitespace).reverse
        = [] := by
      have := congrArg String.data h
      simpa using this
    have h2 : (s.data.dropWhile isJsWhitespace).reverse.dropWhile isJsWhitespace = [] := by
      simpa using h1
    rw [List.dropWhile_eq_nil_iff] at h2
    have h3 : s.data.dropWhile isJsWhitespace = [] := by
      by_contra hne
      have hhead := List.head_dropWhile_not isJsWhitespace s.data hne
      have hmem : (s.data.dropWhile isJsWhitespace).head hne ∈
          (s.data.dropWhile isJsWhitespace).reverse :=
        List.mem_reverse.mpr (List.head_mem hne)
      have := h2 _ hmem
      simp [hhead] at this
    rw [List.dropWhile_eq_nil_iff] at h3
    simpa using h3
  · intro h
    have h3 : s.data.dropWhile isJsWhitespace = [] := by
      rw [List.dropWhile_eq_nil_iff]
      simpa using h
    simp [h3]

theorem outputReady_eq_not_isBlank (output : Option String) :
    outputReady output = !isBlank output := by
  cases output with
  | none => simp [outputReady, isBlank]
  | some s =>
    by_cases hb : s.data.all isJsWhitespace = true
    · have ht := (jsTrim_eq_empty_iff s).mpr hb
      simp [outputReady, isBlank, hb, ht]
    · have ht : jsTrim s ≠ "" := fun h => hb ((jsTrim_eq_empty_iff s).mp h)
      have hne : s ≠ "" := by
        intro h0
        subst h0
        exact hb (by decide)
      simp only [Bool.not_eq_true] at hb
      simp [outputReady, isBlank, hb, ht, hne]

theorem pollerState_some {w : World} {i : Nat} {a : Bool} {n : Nat}
    (hs : pollerState w i = some (a, n)) :
    ∃ p, w.pollers[i]? = some p ∧ p.active = a ∧ p.inFlight = n := by
  unfold pollerState at hs
  rw [List.get?_eq_getElem?] at hs
  cases hp : w.pollers[i]? with
  | none => simp [hp] at hs
  | some p =>
    simp [hp] at hs
    exact ⟨p, rfl, hs.1, hs.2⟩

theorem timerFires_idle (cfg : Settings) (i : Nat) (w : World)
    (hs : pollerState w i = some (true, 0)) :
    pollerState (timerFires cfg i w) i = some (true, 1) ∧
    pollGets (timerFires cfg i w) = pollGets w + 1 ∧
    readyEvents (timerFires cfg i w) = readyEvents w ∧
    errorMessages (timerFires cfg i w) = errorMessages w ∧
    panels (timerFires cfg i w) = panels w ∧
    (timerFires cfg i w).selectedDevice = w.selectedDevice := by
  obtain ⟨p, hp, ha, hn⟩ := pollerState_some hs
  simp [timerFires, pollerState, hp, ha, hn, pollGets, pollGetsIn, readyEvents, readyIn,
    errorMessages, errorsIn, panels, panelsIn]

theorem timerFires_cleared (cfg : Settings) (i : Nat) (w : World) (n : Nat)
    (hs : pollerState w i = some (false, n)) :
    timerFires cfg i w = w := by
  obtain ⟨p, hp, ha, hn⟩ := pollerState_some hs
  simp [timerFires, hp, ha]

theorem pollResponse_blank (i : Nat) (w : World) (output : Option String)
    (hs : pollerState w i = some (true, 1)) (hb : isBlank output = true) :
    pollerState (pollResponse i (Reply.ok output) w) i = some (true, 0) ∧
    pollGets (pollResponse i (Reply.ok output) w) = pollGets w ∧
    readyEvents (pollResponse i (Reply.ok output) w) = readyEvents w ∧
    errorMessages (pollResponse i (Reply.ok output) w) = errorMessages w ∧
    panels (pollResponse i (Reply.ok output) w) = panels w ∧
    (pollResponse i (Reply.ok output) w).selectedDevice = w.selectedDevice := by
  obtain ⟨p, hp, ha, hn⟩ := pollerState_some hs
  have hr : outputReady output = false := by
    rw [outputReady_eq_not_isBlank, hb]; rfl
  simp [pollResponse, pollerState, hp, ha, hn, hr, emit, pollGets, pollGetsIn, readyEvents,
    readyIn, errorMessages, errorsIn, panels, panelsIn]

theorem pollResponse_fails (i : Nat) (w : World) (message : String)
    (hs : pollerState w i = some (true, 1)) :
    pollerState (pollResponse i (Reply.fails message) w) i = some (false, 0) ∧
    pollGets (pollResponse i (Reply.fails message) w) = pollGets w ∧
    readyEvents (pollResponse i (Reply.fails message) w) = readyEvents w ∧
    errorMessages (pollResponse i (Reply.fails message) w) =
      ("Error polling for script output: " ++ message) :: errorMessages w ∧
    panels (pollResponse i (Reply.fails message) w) = panels w ∧
    (pollResponse i (Reply.fails message) w).selectedDevice = w.selectedDevice := by
  obtain ⟨p, hp, ha, hn⟩ := pollerState_some hs
  simp [pollResponse, pollCatch, clearInterval, pollerState, hp, ha, hn, emit, pollGets,
    pollGetsIn, readyEvents, readyIn, errorMessages, errorsIn, panels, panelsIn]

theorem pollResponse_ready (i : Nat) (w : World) (o : String)
    (hs : pollerState w i = some (true, 1)) (hb : isBlank (some o) = false) :
    pollerState (pollResponse i (Reply.ok (some o)) w) i = some (false, 0) ∧
    pollGets (pollResponse i (Reply.ok (some o)) w) = pollGets w ∧
    readyEvents (pollResponse i (Reply.ok (some o)) w) = o :: readyEvents w ∧
    (pollResponse i (Reply.ok (some o)) w).selectedDevice = w.selectedDevice ∧
    (∀ d, w.selectedDevice = some d →
      errorMessages (pollResponse i (Reply.ok (some o)) w) = errorMessages w ∧
      panels (pollResponse i (Reply.ok (some o)) w) = htmlContent d o :: panels w) ∧
    (w.selectedDevice = none →
      errorMessages (pollResponse i (Reply.ok (some o)) w) =
        ("Error polling for script output: " ++ nullLabelMessage) :: errorMessages w ∧
      panels (pollResponse i (Reply.ok (some o)) w) = panels w) := by
  obtain ⟨p, hp, ha, hn⟩ := pollerState_some hs
  have hr : outputReady (some o) = true := by
    rw [outputReady_eq_not_isBlank, hb]; rfl
  cases hd : w.selectedDevice with
  | none =>
    simp [pollResponse, pollCatch, clearInterval, showOutputInNewTab, pollerState, hp, ha, hn,
      hr, hd, emit, pollGets, pollGetsIn, readyEvents, readyIn, errorMessages, errorsIn, panels,
      panelsIn]
  | some d =>
    simp [pollResponse, pollCatch, clearInterval, showOutputInNewTab, pollerState, hp, ha, hn,
      hr, hd, emit, pollGets, pollGetsIn, readyEvents, readyIn, errorMessages, errorsIn, panels,
      panelsIn]

theorem pollForOutput_fresh (cfg : Settings) (sessionId collectorId apiKey companyName : String)
    (w : World) :
    pollerState (pollForOutput cfg sessionId collectorId apiKey companyName w) w.pollers.length
      = some (true, 0) ∧
    pollGets (pollForOutput cfg sessionId collectorId apiKey companyName w) = pollGets w ∧
    readyEvents (pollForOutput cfg sessionId collectorId apiKey companyName w) = readyEvents w ∧
    errorMessages (pollForOutput cfg sessionId collectorId apiKey companyName w)
      = errorMessages w ∧
    panels (pollForOutput cfg sessionId collectorId apiKey companyName w) = panels w ∧
    (pollForOutput cfg sessionId collectorId apiKey companyName w).selectedDevice
      = w.selectedDevice := by
  simp [pollForOutput, pollerState, pollGets, pollGetsIn, readyEvents, readyIn, errorMessages,
    errorsIn, panels, panelsIn]

theorem sequential_cons (i : Nat) (r : Reply (Option String))
    (rs : List (Reply (Option String))) :
    sequential i (r :: rs) = PollStep.fire i :: PollStep.respond i r :: sequential i rs := by
  simp [sequential]

theorem sequential_append (i : Nat) (rs ss : List (Reply (Option String))) :
    sequential i (rs ++ ss) = sequential i rs ++ sequential i ss := by
  simp [sequential]

theorem pollRun_append (cfg : Settings) (w : World) (xs ys : List PollStep) :
    pollRun cfg w (xs ++ ys) = pollRun cfg (pollRun cfg w xs) ys := by
  simp [pollRun]

theorem pollRun_blank (cfg : Settings) (i : Nat) (pend : List (Reply (Option String))) :
    ∀ w : World, pollerState w i = some (true, 0) →
      (∀ r ∈ pend, ∃ out, r = Reply.ok out ∧ isBlank out = true) →
      pollerState (pollRun cfg w (sequential i pend)) i = some (true, 0) ∧
      pollGets (pollRun cfg w (sequential i pend)) = pollGets w + pend.length ∧
      readyEvents (pollRun cfg w (sequential i pend)) = readyEvents w ∧
      errorMessages (pollRun cfg w (sequential i pend)) = errorMessages w ∧
      panels (pollRun cfg w (sequential i pend)) = panels w ∧
      (pollRun cfg w (sequential i pend)).selectedDevice = w.selectedDevice := by
  induction pend with
  | nil => intro w hs _; simp [sequential, pollRun, hs]
  | cons r rs ih =>
    intro w hs hp
    obtain ⟨out, hr, hb⟩ := hp r (List.mem_cons_self _ _)
    subst hr
    have hf := timerFires_idle cfg i w hs
    have hb' := pollResponse_blank i (timerFires cfg i w) out hf.1 hb
    have hrest := ih (pollResponse i (Reply.ok out) (timerFires cfg i w)) hb'.1
      (fun x hx => hp x (List.mem_cons_of_mem _ hx))
    have hrun : pollRun cfg w (sequential i (Reply.ok out :: rs)) =
        pollRun cfg (pollResponse i (Reply.ok out) (timerFires cfg i w)) (sequential i rs) := by
      rw [sequential_cons]; rfl
    rw [hrun]
    refine ⟨hrest.1, ?_, ?_, ?_, ?_, ?_⟩
    · rw [hrest.2.1, hb'.2.1, hf.2.1, List.length_cons]; omega
    · rw [hrest.2.2.1, hb'.2.2.1, hf.2.2.1]
    · rw [hrest.2.2.2.1, hb'.2.2.2.1, hf.2.2.2.1]
    · rw [hrest.2.2.2.2.1, hb'.2.2.2.2.1, hf.2.2.2.2.1]
    · rw [hrest.2.2.2.2.2, hb'.2.2.2.2.2, hf.2.2.2.2.2]

theorem pollRun_fires_cleared (cfg : Settings) (i : Nat) (w : World) (n : Nat)
    (hs : pollerState w i = some (false, n)) (later : Nat) :
    pollRun cfg w (List.replicate later (PollStep.fire i)) = w := by
  induction later with
  | zero => rfl
  | succ k ih =>
    rw [List.replicate_succ]
    show pollRun cfg (timerFires cfg i w) _ = w
    rw [timerFires_cleared cfg i w n hs]
    exact ih

/-- C3: when the first k poll responses carry an absent, empty or
whitespace-only output and response k+1 carries an output o that is not
blank, then, the ticks being handled one after another, the poller is still
polling after k ticks (k requests sent, timer active, no event), and after
tick k+1 it has sent exactly k+1 requests, has handed o unmodified to
`showOutputInNewTab` exactly once, and its timer is cleared, so that no later
firing sends a request; with a device in the slot the panel shows the document
rendered from o and no error is shown. -/
theorem poll_ready_after_blanks (cfg : Settings)
    (sessionId collectorId apiKey companyName : String) (w : World)
    (pend : List (Reply (Option String))) (o : String) (later : Nat)
    (hpend : ∀ r ∈ pend, ∃ out, r = Reply.ok out ∧ isBlank out = true)
    (ho : isBlank (some o) = false) :
    (pollerState (afterTicks cfg sessionId collectorId apiKey companyName w pend)
        w.pollers.length = some (true, 0) ∧
      pollGets (afterTicks cfg sessionId collectorId apiKey companyName w pend)
        = pollGets w + pend.length ∧
      readyEvents (afterTicks cfg sessionId collectorId apiKey companyName w pend)
        = readyEvents w ∧
      errorMessages (afterTicks cfg sessionId collectorId apiKey companyName w pend)
        = errorMessages w) ∧
    (pollGets (afterTicks cfg sessionId collectorId apiKey companyName w
        (pend ++ [Reply.ok (some o)])) = pollGets w + (pend.length + 1) ∧
      readyEvents (afterTicks cfg sessionId collectorId apiKey companyName w
        (pend ++ [Reply.ok (some o)])) = o :: readyEvents w ∧
      pollerState (afterTicks cfg sessionId collectorId apiKey companyName w
        (pend ++ [Reply.ok (some o)])) w.pollers.length = some (false, 0)) ∧
    pollRun cfg (afterTicks cfg sessionId collectorId apiKey companyName w
        (pend ++ [Reply.ok (some o)])) (List.replicate later (PollStep.fire w.pollers.length))
      = afterTicks cfg sessionId collectorId apiKey companyName w
        (pend ++ [Reply.ok (some o)]) ∧
    (∀ d, w.selectedDevice = some d →
      panels (afterTicks cfg sessionId collectorId apiKey companyName w
        (pend ++ [Reply.ok (some o)])) = htmlContent d o :: panels w ∧
      errorMessages (afterTicks cfg sessionId collectorId apiKey companyName w
        (pend ++ [Reply.ok (some o)])) = errorMessages w) := by
  have h0 := pollForOutput_fresh cfg sessionId collectorId apiKey companyName w
  have hk := pollRun_blank cfg w.pollers.length pend
    (pollForOutput cfg sessionId collectorId apiKey companyName w) h0.1 hpend
  have hf := timerFires_idle cfg w.pollers.length _ hk.1
  have hr := pollResponse_ready w.pollers.length _ o hf.1 ho
  have hlast : afterTicks cfg sessionId collectorId apiKey companyName w
      (pend ++ [Reply.ok (some o)]) =
      pollResponse w.pollers.length (Reply.ok (some o))
        (timerFires cfg w.pollers.length
          (afterTicks cfg sessionId collectorId apiKey companyName w pend)) := by
    unfold afterTicks
    rw [sequential_append, pollRun_append]
    rfl
  refine ⟨⟨hk.1, ?_, ?_, ?_⟩, ?_, ?_, ?_⟩
  · exact hk.2.1.trans (by rw [h0.2.1])
  · exact hk.2.2.1.trans h0.2.2.1
  · exact hk.2.2.2.1.trans h0.2.2.2.1
  · rw [hlast]
    refine ⟨?_, ?_, hr.1⟩
    · show pollGets (pollResponse _ _ (timerFires cfg _ (pollRun cfg _ _))) = _
      rw [hr.2.1, hf.2.1, hk.2.1, h0.2.1]; omega
    · show readyEvents (pollResponse _ _ (timerFires cfg _ (pollRun cfg _ _))) = _
      rw [hr.2.2.1, hf.2.2.1, hk.2.2.1, h0.2.2.1]
  · rw [hlast]
    exact pollRun_fires_cleared cfg _ _ 0 hr.1 later
  · intro d hd
    have hsel : (timerFires cfg w.pollers.length
        (pollRun cfg (pollForOutput cfg sessionId collectorId apiKey companyName w)
          (sequential w.pollers.length pend))).selectedDevice = some d := by
      rw [hf.2.2.2.2.2, hk.2.2.2.2.2, h0.2.2.2.2.2, hd]
    have hrd := hr.2.2.2.2.1 d hsel
    rw [hlast]
    constructor
    · show panels (pollResponse _ _ (timerFires cfg _ (pollRun cfg _ _))) = _
      rw [hrd.2, hf.2.2.2.2.1, hk.2.2.2.2.1, h0.2.2.2.2.1]
    · show errorMessages (pollResponse _ _ (timerFires cfg _ (pollRun cfg _ _))) = _
      rw [hrd.1, hf.2.2.2.1, hk.2.2.2.1, h0.2.2.2.1]

/-- C4 (amended): when the ticks are handled one after another, the first k-1
poll responses are blank and GET number k fails, the poller shows exactly one
error message (the Failed event), hands nothing to `showOutputInNewTab`, has
sent exactly k requests, and its timer is cleared, so that no later firing
sends request k+1. -/
theorem poll_failure_stops (cfg : Settings)
    (sessionId collectorId apiKey companyName : String) (w : World)
    (pend : List (Reply (Option String))) (message : String) (later : Nat)
    (hpend : ∀ r ∈ pend, ∃ out, r = Reply.ok out ∧ isBlank out = true) :
    errorMessages (afterTicks cfg sessionId collectorId apiKey companyName w
        (pend ++ [Reply.fails message]))
      = ("Error polling for script output: " ++ message) :: errorMessages w ∧
    readyEvents (afterTicks cfg sessionId collectorId apiKey companyName w
        (pend ++ [Reply.fails message])) = readyEvents w ∧
    panels (afterTicks cfg sessionId collectorId apiKey companyName w
        (pend ++ [Reply.fails message])) = panels w ∧
    pollGets (afterTicks cfg sessionId collectorId apiKey companyName w
        (pend ++ [Reply.fails message])) = pollGets w + (pend.length + 1) ∧
    pollerState (afterTicks cfg sessionId collectorId apiKey companyName w
        (pend ++ [Reply.fails message])) w.pollers.length = some (false, 0) ∧
    pollRun cfg (afterTicks cfg sessionId collectorId apiKey companyName w
        (pend ++ [Reply.fails message])) (List.replicate later (PollStep.fire w.pollers.length))
      = afterTicks cfg sessionId collectorId apiKey companyName w
        (pend ++ [Reply.fails message]) := by
  have h0 := pollForOutput_fresh cfg sessionId collectorId apiKey companyName w
  have hk := pollRun_blank cfg w.pollers.length pend
    (pollForOutput cfg sessionId collectorId apiKey companyName w) h0.1 hpend
  have hf := timerFires_idle cfg w.pollers.length _ hk.1
  have hr := pollResponse_fails w.pollers.length _ message hf.1
  have hlast : afterTicks cfg sessionId collectorId apiKey companyName w
      (pend ++ [Reply.fails message]) =
      pollResponse w.pollers.length (Reply.fails message)
        (timerFires cfg w.pollers.length
          (afterTicks cfg sessionId collectorId apiKey companyName w pend)) := by
    unfold afterTicks
    rw [sequential_append, pollRun_append]
    rfl
  rw [hlast]
  refine ⟨?_, ?_, ?_, ?_, hr.1, pollRun_fires_cleared cfg _ _ 0 hr.1 later⟩
  · show errorMessages (pollResponse _ _ (timerFires cfg _ (pollRun cfg _ _))) = _
    rw [hr.2.2.2.1, hf.2.2.2.1, hk.2.2.2.1, h0.2.2.2.1]
  · show readyEvents (pollResponse _ _ (timerFires cfg _ (pollRun cfg _ _))) = _
    rw [hr.2.2.1, hf.2.2.1, hk.2.2.1, h0.2.2.1]
  · show panels (pollResponse _ _ (timerFires cfg _ (pollRun cfg _ _))) = _
    rw [hr.2.2.2.2.1, hf.2.2.2.2.1, hk.2.2.2.2.1, h0.2.2.2.2.1]
  · show pollGets (pollResponse _ _ (timerFires cfg _ (pollRun cfg _ _))) = _
    rw [hr.2.1, hf.2.1, hk.2.1, h0.2.1]; omega

theorem timerFires_active (cfg : Settings) (i : Nat) (w : World) (n : Nat)
    (hs : pollerState w i = some (true, n)) :
    pollerState (timerFires cfg i w) i = some (true, n + 1) ∧
    pollGets (timerFires cfg i w) = pollGets w + 1 ∧
    terminalEvents (timerFires cfg i w) = terminalEvents w ∧
    (timerFires cfg i w).selectedDevice = w.selectedDevice := by
  obtain ⟨p, hp, ha, hn⟩ := pollerState_some hs
  simp [timerFires, pollerState, hp, ha, hn, pollGets, pollGetsIn, terminalEvents, readyEvents,
    readyIn, errorMessages, errorsIn]

theorem pollResponse_none_in_flight (i : Nat) (w : World) (a : Bool)
    (r : Reply (Option String)) (hs : pollerState w i = some (a, 0)) :
    pollResponse i r w = w := by
  obtain ⟨p, hp, _, hn⟩ := pollerState_some hs
  simp [pollResponse, hp, hn]

theorem Settled.tick {w : World} {i : Nat} {d : Device} {c : Nat} (cfg : Settings)
    (hs : Settled w i d c) (r : Reply (Option String)) :
    Settled (pollResponse i r (timerFires cfg i w)) i d c := by
  obtain ⟨hd, hidle | hstop⟩ := hs
  · obtain ⟨hst, hc⟩ := hidle
    have hf := timerFires_idle cfg i w hst
    have hft : terminalEvents (timerFires cfg i w) = terminalEvents w := by
      simp [terminalEvents, hf.2.2.1, hf.2.2.2.1]
    cases r with
    | fails message =>
      have hr := pollResponse_fails i _ message hf.1
      refine ⟨by rw [hr.2.2.2.2.2, hf.2.2.2.2.2, hd], Or.inr ⟨hr.1, ?_⟩⟩
      simp only [terminalEvents, hr.2.2.1, hr.2.2.2.1, hf.2.2.1, hf.2.2.2.1, List.length_cons]
      simp only [terminalEvents] at hc
      omega
    | ok output =>
      cases hb : isBlank output with
      | true =>
        have hr := pollResponse_blank i _ output hf.1 hb
        refine ⟨by rw [hr.2.2.2.2.2, hf.2.2.2.2.2, hd], Or.inl ⟨hr.1, ?_⟩⟩
        simp only [terminalEvents, hr.2.2.1, hr.2.2.2.1, hf.2.2.1, hf.2.2.2.1]
        simp only [terminalEvents] at hc
        exact hc
      | false =>
        cases output with
        | none => simp [isBlank] at hb
        | some o =>
          have hr := pollResponse_ready i _ o hf.1 hb
          have hsel : (timerFires cfg i w).selectedDevice = some d := by
            rw [hf.2.2.2.2.2, hd]
          have hrd := hr.2.2.2.2.1 d hsel
          refine ⟨by rw [hr.2.2.2.1, hsel], Or.inr ⟨hr.1, ?_⟩⟩
          simp only [terminalEvents, hr.2.2.1, hrd.1, hf.2.2.1, hf.2.2.2.1, List.length_cons]
          simp only [terminalEvents] at hc
          omega
  · obtain ⟨hst, hc⟩ := hstop
    rw [timerFires_cleared cfg i w 0 hst, pollResponse_none_in_flight i w false r hst]
    exact ⟨hd, Or.inr ⟨hst, hc⟩⟩

theorem Settled.bound {w : World} {i : Nat} {d : Device} {c : Nat} (hs : Settled w i d c) :
    ∃ a n, pollerState w i = some (a, n) ∧ n ≤ 1 ∧
      terminalEvents w + (if a = true then 1 else 0) = c := by
  obtain ⟨_, ⟨hst, hc⟩ | ⟨hst, hc⟩⟩ := hs
  · exact ⟨true, 0, hst, by omega, by simpa using hc⟩
  · exact ⟨false, 0, hst, by omega, by simpa using hc⟩

theorem Settled.fire_bound {w : World} {i : Nat} {d : Device} {c : Nat} (cfg : Settings)
    (hs : Settled w i d c) :
    ∃ a n, pollerState (timerFires cfg i w) i = some (a, n) ∧ n ≤ 1 ∧
      terminalEvents (timerFires cfg i w) + (if a = true then 1 else 0) = c := by
  obtain ⟨_, ⟨hst, hc⟩ | ⟨hst, hc⟩⟩ := hs
  · have hf := timerFires_active cfg i w 0 hst
    exact ⟨true, 1, hf.1, by omega, by simpa [hf.2.2.1] using hc⟩
  · rw [timerFires_cleared cfg i w 0 hst]
    exact ⟨false, 0, hst, by omega, by simpa using hc⟩

theorem sequential_take_bound (cfg : Settings) (i : Nat) (d : Device) (c : Nat)
    (results : List (Reply (Option String))) :
    ∀ (w : World) (j : Nat), Settled w i d c →
      ∃ a n, pollerState (pollRun cfg w ((sequential i results).take j)) i = some (a, n) ∧
        n ≤ 1 ∧
        terminalEvents (pollRun cfg w ((sequential i results).take j)) +
          (if a = true then 1 else 0) = c := by
  induction results with
  | nil =>
    intro w j hs
    simpa [sequential, pollRun] using hs.bound
  | cons r rs ih =>
    intro w j hs
    rw [sequential_cons]
    match j with
    | 0 => simpa [pollRun] using hs.bound
    | 1 => simpa [pollRun, pollStep] using hs.fire_bound cfg
    | k + 2 =>
      have := ih (pollResponse i r (timerFires cfg i w)) k (hs.tick cfg r)
      simpa [pollRun, pollStep] using this

theorem sequential_settled (cfg : Settings) (i : Nat) (d : Device) (c : Nat)
    (results : List (Reply (Option String))) :
    ∀ (w : World), Settled w i d c → Settled (pollRun cfg w (sequential i results)) i d c := by
  induction results with
  | nil => intro w hs; simpa [sequential, pollRun] using hs
  | cons r rs ih =>
    intro w hs
    rw [sequential_cons]
    exact ih _ (hs.tick cfg r)

theorem sequential_stops (cfg : Settings) (i : Nat) (d : Device) (c : Nat)
    (results : List (Reply (Option String))) :
    ∀ (w : World), Settled w i d c →
      (∃ r ∈ results, ∀ out, r = Reply.ok out → isBlank out = false) →
      pollerState (pollRun cfg w (sequential i results)) i = some (false, 0) ∧
      terminalEvents (pollRun cfg w (sequential i results)) = c := by
  induction results with
  | nil => intro w _ hex; simp at hex
  | cons r rs ih =>
    intro w hs hex
    rw [sequential_cons]
    show pollerState (pollRun cfg (pollResponse i r (timerFires cfg i w)) _) i = _ ∧
      terminalEvents (pollRun cfg (pollResponse i r (timerFires cfg i w)) _) = c
    have hnext := hs.tick cfg r
    by_cases hr : ∀ out, r = Reply.ok out → isBlank out = false
    · -- this tick is terminal: the timer is cleared from here on
      have hcleared : pollerState (pollResponse i r (timerFires cfg i w)) i = some (false, 0) := by
        obtain ⟨hd, ⟨hst, hc⟩ | ⟨hst, hc⟩⟩ := hs
        · have hf := timerFires_idle cfg i w hst
          cases r with
          | fails message => exact (pollResponse_fails i _ message hf.1).1
          | ok output =>
            cases output with
            | none => simpa [isBlank] using hr none rfl
            | some o => exact (pollResponse_ready i _ o hf.1 (hr _ rfl)).1
        · rw [timerFires_cleared cfg i w 0 hst, pollResponse_none_in_flight i w false r hst]
          exact hst
      have hfinal := sequential_settled cfg i d c rs _ hnext
      obtain ⟨_, ⟨hst, _⟩ | ⟨hst, hc⟩⟩ := hfinal
      · -- impossible: a cleared timer stays cleared
        have hstay : ∀ (ss : List (Reply (Option String))) (v : World),
            pollerState v i = some (false, 0) → pollRun cfg v (sequential i ss) = v := by
          intro ss
          induction ss with
          | nil => intro v _; rfl
          | cons s ss ihs =>
            intro v hv
            rw [sequential_cons]
            show pollRun cfg (pollResponse i s (timerFires cfg i v)) _ = v
            rw [timerFires_cleared cfg i v 0 hv, pollResponse_none_in_flight i v false s hv]
            exact ihs v hv
        rw [hstay rs _ hcleared] at hst
        rw [hcleared] at hst
        simp at hst
      · exact ⟨hst, hc⟩
    · have hex' : ∃ r' ∈ rs, ∀ out, r' = Reply.ok out → isBlank out = false := by
        obtain ⟨r', hmem, hr'⟩ := hex
        rcases List.mem_cons.mp hmem with heq | hmem'
        · exact absurd (heq ▸ hr') hr
        · exact ⟨r', hmem', hr'⟩
      exact ih _ hnext hex'

/-- C5 (amended): the timer starts a new GET at every firing while it is
active, whether or not earlier GETs are still awaited, so that several ticks
are in flight when responses take longer than the poll interval; when every
response is handled before the next firing and a device stays selected, at
most one tick is in flight at any time and at most one terminal event (Ready or
Failed) is produced, none while the timer is active and exactly one once a
response carried a non-blank output or failed. -/
theorem poll_single_flight_when_sequential (cfg : Settings)
    (sessionId collectorId apiKey companyName : String) (w : World) (d : Device)
    (results : List (Reply (Option String))) (hd : w.selectedDevice = some d) :
    (∀ (v : World) (i n : Nat), pollerState v i = some (true, n) →
      pollerState (timerFires cfg i v) i = some (true, n + 1) ∧
      pollGets (timerFires cfg i v) = pollGets v + 1) ∧
    (∀ j, ∃ a n,
      pollerState (pollRun cfg (pollForOutput cfg sessionId collectorId apiKey companyName w)
        ((sequential w.pollers.length results).take j)) w.pollers.length = some (a, n) ∧
      n ≤ 1 ∧
      terminalEvents (pollRun cfg (pollForOutput cfg sessionId collectorId apiKey companyName w)
        ((sequential w.pollers.length results).take j)) + (if a = true then 1 else 0)
        = terminalEvents w + 1) ∧
    ((∃ r ∈ results, ∀ out, r = Reply.ok out → isBlank out = false) →
      terminalEvents (afterTicks cfg sessionId collectorId apiKey companyName w results)
        = terminalEvents w + 1) := by
  have h0 := pollForOutput_fresh cfg sessionId collectorId apiKey companyName w
  have hset : Settled (pollForOutput cfg sessionId collectorId apiKey companyName w)
      w.pollers.length d (terminalEvents w + 1) := by
    refine ⟨by rw [h0.2.2.2.2.2, hd], Or.inl ⟨h0.1, ?_⟩⟩
    simp [terminalEvents, h0.2.2.1, h0.2.2.2.1]
  refine ⟨?_, ?_, ?_⟩
  · intro v i n hv
    have := timerFires_active cfg i v n hv
    exact ⟨this.1, this.2.1⟩
  · intro j
    exact sequential_take_bound cfg _ d _ results _ j hset
  · intro hex
    exact (sequential_stops cfg _ d _ results _ hset hex).2

/-! ## Witnesses and counterexamples -/

theorem fetchDevices_offers_mapped_items_witness :
    ∃ devices : List Device,
      offered (fetchDevices cfgEx hostEx (0 + 1) worldEx).world = devices :: offered worldEx ∧
      devices.length = [itemEx].length ∧
      ∀ (i : Nat) (item : Item), [itemEx][i]? = some item →
        devices[i]? = some { label := item.displayName, id := item.id,
                             collectorId := item.currentCollectorId } :=
  fetchDevices_offers_mapped_items cfgEx hostEx 0 worldEx "By Name" "router1" [itemEx]
    ⟨by decide, by decide, by decide, by decide⟩ (by decide) (by decide)

theorem fetchDevices_filter_witness :
    ∃ (later : List String) (filter : String),
      searchFilters (fetchDevices cfgEx hostEx (0 + 1) worldEx).world
        = later ++ filter :: searchFilters worldEx ∧
      ("By Name" = "By IP" ∨ "By Name" = "By Name") ∧
      ("By Name" = "By IP" → filter = "name~\"" ++ "router1" ++ "\"") ∧
      ("By Name" = "By Name" → filter = "displayName~\"" ++ "router1" ++ "\"") :=
  fetchDevices_filter cfgEx hostEx 0 worldEx "By Name" "router1"
    ⟨by decide, by decide, by decide, by decide⟩

theorem blank_twice : ∀ r ∈ [Reply.ok (some ""), Reply.ok (some " \n")],
    ∃ out : Option String, r = Reply.ok out ∧ isBlank out = true := by
  intro r hr
  simp only [List.mem_cons, List.mem_singleton, List.not_mem_nil, or_false] at hr
  rcases hr with rfl | rfl
  · exact ⟨_, rfl, by decide⟩
  · exact ⟨_, rfl, by decide⟩

theorem poll_ready_after_blanks_witness :
    pollGets (afterTicks cfgEx "s1" "7" "tok" "acme" worldSelected
        ([Reply.ok (some ""), Reply.ok (some " \n")] ++ [Reply.ok (some "done")]))
      = pollGets worldSelected + (2 + 1) ∧
    readyEvents (afterTicks cfgEx "s1" "7" "tok" "acme" worldSelected
        ([Reply.ok (some ""), Reply.ok (some " \n")] ++ [Reply.ok (some "done")]))
      = "done" :: readyEvents worldSelected ∧
    pollerState (afterTicks cfgEx "s1" "7" "tok" "acme" worldSelected
        ([Reply.ok (some ""), Reply.ok (some " \n")] ++ [Reply.ok (some "done")]))
      worldSelected.pollers.length = some (false, 0) :=
  (poll_ready_after_blanks cfgEx "s1" "7" "tok" "acme" worldSelected
    [Reply.ok (some ""), Reply.ok (some " \n")] "done" 5 blank_twice (by decide)).2.1

theorem poll_failure_stops_witness :
    errorMessages (afterTicks cfgEx "s1" "7" "tok" "acme" worldSelected
        ([Reply.ok (some "")] ++ [Reply.fails "Network Error"]))
      = ("Error polling for script output: " ++ "Network Error") :: errorMessages worldSelected ∧
    readyEvents (afterTicks cfgEx "s1" "7" "tok" "acme" worldSelected
        ([Reply.ok (some "")] ++ [Reply.fails "Network Error"])) = readyEvents worldSelected :=
  have h := poll_failure_stops cfgEx "s1" "7" "tok" "acme" worldSelected
    [Reply.ok (some "")] "Network Error" 5
    (by intro r hr
        simp only [List.mem_singleton] at hr
        subst hr
        exact ⟨_, rfl, by decide⟩)
  ⟨h.1, h.2.1⟩

/-- C4 (counterexample): the timer fires twice before the first response
arrives, so a second GET is already out when the first one fails (k = 1).
When the second GET then returns output, a Ready event follows the failure;
when it fails too, a second error message is shown. -/
theorem poll_failure_with_overlap :
    pollGets (pollRun cfgEx (pollForOutput cfgEx "s1" "7" "tok" "acme" worldSelected)
      [PollStep.fire 0, PollStep.fire 0, PollStep.respond 0 (Reply.fails "Network Error")])
      = 2 ∧
    errorMessages (pollRun cfgEx (pollForOutput cfgEx "s1" "7" "tok" "acme" worldSelected)
      [PollStep.fire 0, PollStep.fire 0, PollStep.respond 0 (Reply.fails "Network Error"),
       PollStep.respond 0 (Reply.ok (some "done"))])
      = ["Error polling for script output: Network Error"] ∧
    readyEvents (pollRun cfgEx (pollForOutput cfgEx "s1" "7" "tok" "acme" worldSelected)
      [PollStep.fire 0, PollStep.fire 0, PollStep.respond 0 (Reply.fails "Network Error"),
       PollStep.respond 0 (Reply.ok (some "done"))]) = ["done"] ∧
    errorMessages (pollRun cfgEx (pollForOutput cfgEx "s1" "7" "tok" "acme" worldSelected)
      [PollStep.fire 0, PollStep.fire 0, PollStep.respond 0 (Reply.fails "Network Error"),
       PollStep.respond 0 (Reply.fails "Network Error")])
      = ["Error polling for script output: Network Error",
         "Error polling for script output: Network Error"] := by
  refine ⟨?_, ?_, ?_, ?_⟩ <;> decide

/-- C5 (counterexample): the timer fires twice before the first response
arrives: two ticks are in flight; both responses then carry output, and two
Ready events are produced. -/
theorem poll_overlapping_ticks :
    pollerState (pollRun cfgEx (pollForOutput cfgEx "s1" "7" "tok" "acme" worldSelected)
      [PollStep.fire 0, PollStep.fire 0]) 0 = some (true, 2) ∧
    readyEvents (pollRun cfgEx (pollForOutput cfgEx "s1" "7" "tok" "acme" worldSelected)
      [PollStep.fire 0, PollStep.fire 0, PollStep.respond 0 (Reply.ok (some "a")),
       PollStep.respond 0 (Reply.ok (some "b"))]) = ["b", "a"] := by
  constructor <;> decide

theorem poll_single_flight_when_sequential_witness :
    ∃ a n,
      pollerState (pollRun cfgEx (pollForOutput cfgEx "s1" "7" "tok" "acme" worldSelected)
        ((sequential worldSelected.pollers.length
          [Reply.ok none, Reply.ok (some "done")]).take 3)) worldSelected.pollers.length
        = some (a, n) ∧
      n ≤ 1 ∧
      terminalEvents (pollRun cfgEx (pollForOutput cfgEx "s1" "7" "tok" "acme" worldSelected)
        ((sequential worldSelected.pollers.length
          [Reply.ok none, Reply.ok (some "done")]).take 3)) + (if a = true then 1 else 0)
        = terminalEvents worldSelected + 1 :=
  (poll_single_flight_when_sequential cfgEx "s1" "7" "tok" "acme" worldSelected deviceEx
    [Reply.ok none, Reply.ok (some "done")] rfl).2.1 3

/-- C6 (counterexample): the editor text is empty, no credentials are stored
and the user dismisses the prompt: both commands end with the error of
`ensureCredentials`; 'No script found in the active editor!' is not shown. -/
theorem empty_script_credentials_first :
    worldBlankEditor.editor = some "" ∧
    errorMessages (runScriptOnDevice cfgEx hostCancel 0 worldBlankEditor).world
      = ["Company name is required!"] ∧
    errorMessages (runScriptOnNewDevice cfgEx hostCancel 0 worldBlankEditor).world
      = ["Company name is required!"] := by
  refine ⟨rfl, ?_, ?_⟩ <;> decide

theorem empty_script_sends_nothing_witness :
    httpRequests (runScriptOnDevice cfgEx hostCancel 3 worldBlankEditor).world
      = httpRequests worldBlankEditor ∧
    httpRequests (runScriptOnNewDevice cfgEx hostCancel 3 worldBlankEditor).world
      = httpRequests worldBlankEditor :=
  have h := empty_script_sends_nothing cfgEx hostCancel 3 worldBlankEditor rfl
  ⟨h.1, h.2.1⟩

theorem no_sessionId_never_polls_witness :
    (∃ w', runScriptOnDevice cfgEx hostNoSession 1 worldEx = Outcome.returned w' ∧
      w'.trace.head? = some
        (Effect.showErrorMessage "Failed to retrieve sessionId for script execution.")) ∧
    (runScriptOnDevice cfgEx hostNoSession 1 worldEx).world.pollers = worldEx.pollers ∧
    timersStarted (runScriptOnDevice cfgEx hostNoSession 1 worldEx).world
      = timersStarted worldEx ∧
    pollGets (runScriptOnDevice cfgEx hostNoSession 1 worldEx).world = pollGets worldEx :=
  no_sessionId_never_polls cfgEx hostNoSession 1 worldEx
    (runScriptOnDevice cfgEx hostNoSession 1 worldEx) none (Or.inl rfl) (by decide) rfl rfl

/-- C8 (counterexample): for the device with id 42 and the script
`println 1`, the text after the newline of the submitted `cmdline` is the
script preceded by a space, not the script itself. -/
theorem cmdline_inserts_space :
    worldSelected.editor = some "println 1" ∧
    posts (runScriptOnDevice cfgEx hostEx 0 worldSelected).world
      = [("https://acme.logicmonitor.com/santaba/rest/debug/?collectorId=7",
          "!groovy hostId=42 \n println 1")] ∧
    textAfterNewline "!groovy hostId=42 \n println 1" = " println 1" ∧
    textAfterNewline "!groovy hostId=42 \n println 1" ≠ "println 1" := by
  refine ⟨rfl, ?_, ?_, ?_⟩ <;> decide

theorem cmdline_shape_witness :
    ∃ (d : Device) (s url : String),
      (runScriptOnDevice cfgEx hostEx 0 worldSelected).world.selectedDevice = some d ∧
      worldSelected.editor = some s ∧ s ≠ "" ∧
      posts (runScriptOnDevice cfgEx hostEx 0 worldSelected).world
        = (url, "!groovy hostId=" ++ d.id ++ " \n " ++ s) :: posts worldSelected ∧
      ((∀ c ∈ d.id.data, c ≠ '\n') →
        textAfterNewline ("!groovy hostId=" ++ d.id ++ " \n " ++ s) = " " ++ s) :=
  cmdline_shape cfgEx hostEx 0 worldSelected (runScriptOnDevice cfgEx hostEx 0 worldSelected)
    (Or.inl rfl) (by decide)

theorem select_overwrites_and_clear_empties_witness :
    (fetchDevices cfgEx hostTwice 1 worldSelected).world.selectedDevice = some deviceEx ∧
    (fetchDevices cfgEx hostTwice 1
      (fetchDevices cfgEx hostTwice 1 worldSelected).world).world.selectedDevice
      = some deviceOther :=
  have h := select_overwrites_and_clear_empties cfgEx hostTwice 1 1 worldSelected
    deviceEx deviceOther
    ⟨(fetchDevices cfgEx hostTwice 1 worldSelected).world, by decide, by decide⟩
    ⟨(fetchDevices cfgEx hostTwice 1
      (fetchDevices cfgEx hostTwice 1 worldSelected).world).world, by decide, by decide⟩
  ⟨h.1, h.2.1⟩

theorem hostRetry_emptyThenFound : EmptyThenFound hostRetry worldEx 1 [itemEx] := by
  refine ⟨by decide, ?_, ?_, ?_, by decide, by decide⟩
  · intro j hj
    match j, hj with
    | 0, _ => exact ⟨"By Name", by decide⟩
    | 1, _ => exact ⟨"By Name", by decide⟩
  · intro j hj
    match j, hj with
    | 0, _ => exact ⟨"router1", by decide, by decide⟩
    | 1, _ => exact ⟨"router1", by decide, by decide⟩
  · intro j hj
    match j, hj with
    | 0, _ => decide

theorem fetchDevices_retries_until_found_witness :
    ∃ w', fetchDevices cfgEx hostRetry (1 + 1 + 0) worldEx = Outcome.returned w' ∧
      (searchFilters w').length = (searchFilters worldEx).length + (1 + 1) ∧
      modePrompts w' = modePrompts worldEx + (1 + 1) ∧
      w'.nInput = (ensureCredentials hostRetry worldEx).2.nInput + (1 + 1) ∧
      offered w' = toDevices [itemEx] :: offered worldEx :=
  ((fetchDevices_retries_until_found cfgEx hostRetry 1).2 worldEx [itemEx] 0
    hostRetry_emptyThenFound).1

/-! ## The run-script commands from Step 4 on -/

theorem afterLookup_returned (cfg : Settings) (h : Host) (w1 w2 : World) (script : String) :
    afterLookup cfg h w1 script (Outcome.returned w2) =
      match w2.selectedDevice with
      | none =>
        Outcome.returned
          (emit (Effect.showErrorMessage
            "No device selected. Please select a device to run the script on.") w2)
      | some d =>
        Outcome.returned
          (afterSubmit cfg w1.companyName w1.apiKey d (h.submit w2.nSubmit)
            (submitted cfg w1.companyName w1.apiKey d script w2)) := rfl

theorem runScriptOnDevice_reaches (cfg : Settings) (h : Host) (fuel : Nat) (w : World)
    (script : String) (hr : ReachesLookup h w script) :
    runScriptOnDevice cfg h fuel w =
      afterLookup cfg h (ensureCredentials h w).2 script
        (lookupIfNone cfg h fuel (ensureCredentials h w).2) := by
  obtain ⟨hc, he, hne⟩ := hr
  have hst := ensureCredentials_true h w hc
  have hed : (ensureCredentials h w).2.editor = some script := by
    rw [(ensureCredentials_frame h w).2.1]; exact he
  simp only [runScriptOnDevice, hc, hst.1, hst.2, hed, lookupIfNone]
  simp only [hne, Bool.false_eq_true, Bool.or_self, if_false, Bool.true_eq_false]
  cases hsd : (ensureCredentials h w).2.selectedDevice with
  | some d0 =>
    simp only [hsd, afterLookup, afterSubmit, submitted]
    cases hrep : h.submit (ensureCredentials h w).2.nSubmit with
    | fails message => rfl
    | ok sessionId => simp only []; split <;> rfl
  | none =>
    simp only []
    generalize fetchDevices cfg h fuel (ensureCredentials h w).2 = r
    cases r with
    | unfinished w2 => rfl
    | returned w2 =>
      simp only [afterLookup_returned, afterSubmit, submitted]
      cases hd : w2.selectedDevice with
      | none => rfl
      | some d =>
        simp only []
        cases hrep : h.submit w2.nSubmit with
        | fails message => rfl
        | ok sessionId => simp only []; split <;> rfl

theorem runScriptOnNewDevice_reaches (cfg : Settings) (h : Host) (fuel : Nat) (w : World)
    (script : String) (hr : ReachesLookup h w script) :
    runScriptOnNewDevice cfg h fuel w =
      afterLookup cfg h (ensureCredentials h w).2 script
        (fetchDevices cfg h fuel (ensureCredentials h w).2) := by
  obtain ⟨hc, he, hne⟩ := hr
  have hst := ensureCredentials_true h w hc
  have hed : (ensureCredentials h w).2.editor = some script := by
    rw [(ensureCredentials_frame h w).2.1]; exact he
  simp only [runScriptOnNewDevice, hc, hst.1, hst.2, hed]
  simp only [hne, Bool.false_eq_true, Bool.or_self, if_false, Bool.true_eq_false]
  generalize fetchDevices cfg h fuel (ensureCredentials h w).2 = r
  cases r with
  | unfinished w2 => rfl
  | returned w2 =>
    simp only [afterLookup_returned, afterSubmit, submitted]
    cases hd : w2.selectedDevice with
    | none => rfl
    | some d =>
      simp only []
      cases hrep : h.submit w2.nSubmit with
      | fails message => rfl
      | ok sessionId => simp only []; split <;> rfl

/-- C15: from every state with no selected device and for every sequence of
host answers, `runScriptOnDevice` and `runScriptOnNewDevice` have the same
outcome: the same trace of effects (prompts, requests with their URL, headers
and body, messages) and the same final state. -/
theorem run_commands_agree_without_device (cfg : Settings) (h : Host) (fuel : Nat) (w : World)
    (hnone : w.selectedDevice = none) :
    runScriptOnDevice cfg h fuel w = runScriptOnNewDevice cfg h fuel w := by
  have hsel : (ensureCredentials h w).2.selectedDevice = none := by
    rw [(ensureCredentials_frame h w).1]; exact hnone
  simp only [runScriptOnDevice, runScriptOnNewDevice, hsel]

theorem modePromptsIn_append (a b : List Effect) :
    modePromptsIn (a ++ b) = modePromptsIn a + modePromptsIn b := by
  induction a with
  | nil => simp [modePromptsIn]
  | cons e es ih =>
    cases e <;> simp [modePromptsIn, ih]
    omega

theorem Lookup.modePrompts_le {w w' : World} (hl : Lookup w w') :
    modePrompts w ≤ modePrompts w' := by
  obtain ⟨new, ht, _⟩ := hl.added
  unfold modePrompts
  rw [ht, modePromptsIn_append]
  omega

theorem fetchDevices_shows_mode_prompt (cfg : Settings) (h : Host) (fuel : Nat) (w : World)
    (hc : (ensureCredentials h w).1 = true) :
    Lookup (showQuickPick ["By IP", "By Name"] "Select how you want to search devices"
      (ensureCredentials h w).2) (fetchDevices cfg h (fuel + 1) w).world := by
  have hst := ensureCredentials_true h w hc
  have h0 := Lookup.refl (showQuickPick ["By IP", "By Name"]
    "Select how you want to search devices" (ensureCredentials h w).2)
  simp only [fetchDevices, hc, hst.1, hst.2]
  simp only [Bool.false_eq_true, Bool.or_self, if_false, Bool.true_eq_false]
  generalize ensureCredentials h w = ec at h0 ⊢
  split
  · exact h0.emit _ (by rfl)
  split
  · exact (h0.showInputBox _ _ _).emit _ (by rfl)
  split
  · exact ((((h0.showInputBox _ _ _).axiosGetSearch _ _ _).emit _ (by rfl)).emit _ (by rfl))
  split
  · exact ((((h0.showInputBox _ _ _).axiosGetSearch _ _ _).emit _ (by rfl)).trans
      (fetchDevices_lookup cfg h fuel _))
  split
  · exact ((((h0.showInputBox _ _ _).axiosGetSearch _ _ _).showQuickPickDevices _ _).emit _
      (by rfl)).globalStateUpdate _
  · exact ((h0.showInputBox _ _ _).axiosGetSearch _ _ _).showQuickPickDevices _ _

theorem fetchDevices_slot (cfg : Settings) (h : Host) :
    ∀ (fuel : Nat) (w : World),
      (fetchDevices cfg h fuel w).world.selectedDevice = w.selectedDevice ∨
      ∃ d, Selects (fetchDevices cfg h fuel w) d ∧
        (fetchDevices cfg h fuel w).world.selectedDevice = some d := by
  intro fuel
  induction fuel with
  | zero => intro w; exact Or.inl rfl
  | succ n ih =>
    intro w
    have hsel := (ensureCredentials_frame h w).1
    simp only [fetchDevices]
    generalize ensureCredentials h w = ec at hsel ⊢
    split
    · exact Or.inl hsel
    split
    · exact Or.inl hsel
    split
    · exact Or.inl hsel
    split
    · exact Or.inl hsel
    split
    · exact Or.inl hsel
    split
    · rcases ih (emit (Effect.showInformationMessage
        "No devices found matching your criteria. Please try again.")
        (axiosGetSearch _ _ _ (showInputBox _ _ _ (showQuickPick _ _ ec.2)))) with h1 | h1
      · exact Or.inl (h1.trans hsel)
      · exact Or.inr h1
    split
    · rename_i d _
      exact Or.inr ⟨d, ⟨_, rfl, rfl⟩, rfl⟩
    · exact Or.inl hsel

theorem afterSubmit_submitted_frame (cfg : Settings) (companyName apiKey : Option String)
    (d : Device) (script : String) (reply : Reply (Option String)) (w2 : World) :
    (afterSubmit cfg companyName apiKey d reply
      (submitted cfg companyName apiKey d script w2)).selectedDevice = w2.selectedDevice ∧
    (afterSubmit cfg companyName apiKey d reply
      (submitted cfg companyName apiKey d script w2)).companyName = w2.companyName ∧
    (afterSubmit cfg companyName apiKey d reply
      (submitted cfg companyName apiKey d script w2)).apiKey = w2.apiKey ∧
    (afterSubmit cfg companyName apiKey d reply
      (submitted cfg companyName apiKey d script w2)).nInput = w2.nInput ∧
    (afterSubmit cfg companyName apiKey d reply
      (submitted cfg companyName apiKey d script w2)).nPick = w2.nPick ∧
    (afterSubmit cfg companyName apiKey d reply
      (submitted cfg companyName apiKey d script w2)).nSearch = w2.nSearch ∧
    modePrompts (afterSubmit cfg companyName apiKey d reply
      (submitted cfg companyName apiKey d script w2)) = modePrompts w2 ∧
    searchFilters (afterSubmit cfg companyName apiKey d reply
      (submitted cfg companyName apiKey d script w2)) = searchFilters w2 ∧
    posts (afterSubmit cfg companyName apiKey d reply
      (submitted cfg companyName apiKey d script w2)) =
      (baseUrl cfg (companyName.getD "") ++ "/debug/?collectorId=" ++ d.collectorId,
        cmdline d script) :: posts w2 := by
  unfold afterSubmit
  split
  · exact ⟨rfl, rfl, rfl, rfl, rfl, rfl, rfl, rfl, rfl⟩
  · split <;> exact ⟨rfl, rfl, rfl, rfl, rfl, rfl, rfl, rfl, rfl⟩

theorem afterLookup_modePrompts (cfg : Settings) (h : Host) (w1 : World) (script : String)
    (r : Outcome) :
    modePrompts (afterLookup cfg h w1 script r).world = modePrompts r.world := by
  cases r with
  | unfinished w2 => rfl
  | returned w2 =>
    rw [afterLookup_returned]
    cases hd : w2.selectedDevice with
    | none => rfl
    | some d =>
      exact (afterSubmit_submitted_frame cfg w1.companyName w1.apiKey d script
        (h.submit w2.nSubmit) w2).2.2.2.2.2.2.1

/-! ## Claims on the device resolution of the run-script commands -/

/-- C12: in every state with both credentials stored and a non-empty script
in the editor, `runScriptOnDevice` with a device D already selected shows no
input box and no pick list, sends no search request, leaves D selected and
sends the submission with the id of D as host id and the collectorId of D as
collector; and it prompts for the search mode, the first step of the lookup,
if and only if no device is selected. -/
theorem runScriptOnDevice_reuses_selected (cfg : Settings) (h : Host) (fuel : Nat) (w : World)
    (script : String) (hc : falsy w.companyName = false) (ha : falsy w.apiKey = false)
    (he : w.editor = some script) (hne : script ≠ "") :
    (∀ D, w.selectedDevice = some D →
      runScriptOnDevice cfg h fuel w = Outcome.returned
        (afterSubmit cfg w.companyName w.apiKey D (h.submit w.nSubmit)
          (submitted cfg w.companyName w.apiKey D script w)) ∧
      (runScriptOnDevice cfg h fuel w).world.selectedDevice = some D ∧
      (runScriptOnDevice cfg h fuel w).world.nInput = w.nInput ∧
      (runScriptOnDevice cfg h fuel w).world.nPick = w.nPick ∧
      (runScriptOnDevice cfg h fuel w).world.nSearch = w.nSearch ∧
      searchFilters (runScriptOnDevice cfg h fuel w).world = searchFilters w ∧
      posts (runScriptOnDevice cfg h fuel w).world =
        (baseUrl cfg (w.companyName.getD "") ++ "/debug/?collectorId=" ++ D.collectorId,
          "!groovy hostId=" ++ D.id ++ " \n " ++ script) :: posts w) ∧
    (modePrompts w < modePrompts (runScriptOnDevice cfg h (fuel + 1) w).world ↔
      w.selectedDevice = none) := by
  have hec : ensureCredentials h w = (true, w) := ensureCredentials_stored h w hc ha
  have hr : ReachesLookup h w script := ⟨by rw [hec], he, hne⟩
  have hrun : ∀ f, runScriptOnDevice cfg h f w =
      afterLookup cfg h w script (lookupIfNone cfg h f w) := by
    intro f
    have := runScriptOnDevice_reaches cfg h f w script hr
    rw [hec] at this
    exact this
  have hsome : ∀ D f, w.selectedDevice = some D →
      runScriptOnDevice cfg h f w = Outcome.returned
        (afterSubmit cfg w.companyName w.apiKey D (h.submit w.nSubmit)
          (submitted cfg w.companyName w.apiKey D script w)) := by
    intro D f hD
    rw [hrun f]
    simp only [lookupIfNone, hD, afterLookup_returned]
  constructor
  · intro D hD
    have hfr := afterSubmit_submitted_frame cfg w.companyName w.apiKey D script
      (h.submit w.nSubmit) w
    rw [hsome D fuel hD]
    exact ⟨rfl, hfr.1.trans hD, hfr.2.2.2.1, hfr.2.2.2.2.1, hfr.2.2.2.2.2.1,
      hfr.2.2.2.2.2.2.2.1, hfr.2.2.2.2.2.2.2.2⟩
  · constructor
    · intro hlt
      cases hD : w.selectedDevice with
      | none => rfl
      | some D =>
        exfalso
        have hfr := afterSubmit_submitted_frame cfg w.companyName w.apiKey D script
          (h.submit w.nSubmit) w
        rw [hsome D (fuel + 1) hD] at hlt
        have := hfr.2.2.2.2.2.2.1
        simp only [Outcome.world] at hlt
        omega
    · intro hnone
      rw [hrun (fuel + 1), afterLookup_modePrompts]
      simp only [lookupIfNone, hnone]
      have hl := fetchDevices_shows_mode_prompt cfg h fuel w (by rw [hec])
      rw [hec] at hl
      have := Lookup.modePrompts_le (w := showQuickPick ["By IP", "By Name"]
        "Select how you want to search devices" w) hl
      have h1 : modePrompts (showQuickPick ["By IP", "By Name"]
          "Select how you want to search devices" w) = modePrompts w + 1 := rfl
      omega

/-- C14: a run-script command sends its submission only from a world whose
slot holds a device, the one the request names; and when the lookup returns
with the slot still empty, the command returns with the error 'No device
selected. Please select a device to run the script on.' as its last effect
and sends no submission, starts no timer and sends no poll request. -/
theorem submission_needs_device (cfg : Settings) (h : Host) (fuel : Nat) (w : World)
    (out : Outcome)
    (hout : out = runScriptOnDevice cfg h fuel w ∨ out = runScriptOnNewDevice cfg h fuel w) :
    (posts out.world ≠ posts w →
      ∃ (w2 : World) (d : Device) (script : String),
        w2.selectedDevice = some d ∧
        out = Outcome.returned
          (afterSubmit cfg (ensureCredentials h w).2.companyName (ensureCredentials h w).2.apiKey
            d (h.submit w.nSubmit)
            (axiosPost
              (baseUrl cfg ((ensureCredentials h w).2.companyName.getD "") ++
                "/debug/?collectorId=" ++ d.collectorId)
              (cmdline d script)
              (mkHeaders cfg ((ensureCredentials h w).2.apiKey.getD "")) w2))) ∧
    (∀ (script : String) (w2 : World), ReachesLookup h w script →
      fetchDevices cfg h fuel (ensureCredentials h w).2 = Outcome.returned w2 →
      w2.selectedDevice = none →
      out = Outcome.returned
        (emit (Effect.showErrorMessage
          "No device selected. Please select a device to run the script on.") w2) ∧
      posts out.world = posts w ∧
      out.world.pollers = w.pollers ∧
      timersStarted out.world = timersStarted w ∧
      pollGets out.world = pollGets w) := by
  constructor
  · intro hsent
    rcases hout with hout | hout
    · rcases runScriptOnDevice_shape cfg h fuel w with hl | ⟨d, s, hs⟩
      · exact absurd (hout ▸ hl.posts) hsent
      · exact ⟨_, d, s, hs.device, hout ▸ hs.result⟩
    · rcases runScriptOnNewDevice_shape cfg h fuel w with hl | ⟨d, s, hs⟩
      · exact absurd (hout ▸ hl.posts) hsent
      · exact ⟨_, d, s, hs.device, hout ▸ hs.result⟩
  · intro script w2 hr hfd hnone
    have hl2 : Lookup w w2 := by
      have := (ensureCredentials_lookup h w).trans
        (fetchDevices_lookup cfg h fuel (ensureCredentials h w).2)
      rw [hfd] at this
      exact this
    have hval : out = Outcome.returned
        (emit (Effect.showErrorMessage
          "No device selected. Please select a device to run the script on.") w2) := by
      rcases hout with hout | hout
      · have hbefore : (ensureCredentials h w).2.selectedDevice = none := by
          rcases fetchDevices_slot cfg h fuel (ensureCredentials h w).2 with h1 | ⟨d, _, h1⟩
          · rw [hfd] at h1
            exact h1.symm.trans hnone
          · rw [hfd] at h1
            simp only [Outcome.world] at h1
            rw [hnone] at h1
            exact absurd h1 (by simp)
        rw [hout, runScriptOnDevice_reaches cfg h fuel w script hr]
        simp only [lookupIfNone, hbefore, hfd, afterLookup_returned, hnone]
      · rw [hout, runScriptOnNewDevice_reaches cfg h fuel w script hr, hfd,
          afterLookup_returned]
        simp only [hnone]
    rw [hval]
    exact ⟨rfl, hl2.posts, hl2.pollers, hl2.timersStarted, hl2.pollGets⟩

/-- C11 (the code at the failing input): with `deviceEx` already selected and
the search-mode pick dismissed, `runScriptOnNewDevice` shows 'Search method not
selected!', offers no device list, and still sends the submission, to the
device that was selected before the invocation. -/
theorem runScriptOnNewDevice_submits_to_old_device :
    worldSelected.selectedDevice = some deviceEx ∧
    errorMessages (runScriptOnNewDevice cfgEx hostDismiss 1 worldSelected).world
      = ["Search method not selected!"] ∧
    offered (runScriptOnNewDevice cfgEx hostDismiss 1 worldSelected).world = [] ∧
    posts (runScriptOnNewDevice cfgEx hostDismiss 1 worldSelected).world
      = [("https://acme.logicmonitor.com/santaba/rest/debug/?collectorId=7",
          "!groovy hostId=42 \n println 1")] ∧
    timersStarted (runScriptOnNewDevice cfgEx hostDismiss 1 worldSelected).world = 1 := by
  refine ⟨rfl, ?_, ?_, ?_, ?_⟩ <;> decide

/-! ## Rendering of the output -/

theorem replaceNewlines_data (o : String) :
    (replaceNewlines o).data =
      o.data.flatMap (fun c => if c = '\n' then "<br/>".data else [c]) := rfl

theorem flatMap_br_no_newline (l : List Char) :
    ∀ c ∈ l.flatMap (fun c => if c = '\n' then "<br/>".data else [c]), c ≠ '\n' := by
  intro c hc
  rw [List.mem_flatMap] at hc
  obtain ⟨a, _, hca⟩ := hc
  by_cases ha : a = '\n'
  · rw [if_pos ha] at hca
    revert c
    decide
  · rw [if_neg ha] at hca
    rw [List.mem_singleton] at hca
    rw [hca]; exact ha

theorem flatMap_br_of_no_newline (l : List Char) (hl : ∀ c ∈ l, c ≠ '\n') :
    l.flatMap (fun c => if c = '\n' then "<br/>".data else [c]) = l := by
  induction l with
  | nil => rfl
  | cons c cs ih =>
    have hc : c ≠ '\n' := hl c (List.mem_cons_self _ _)
    have := ih (fun x hx => hl x (List.mem_cons_of_mem _ hx))
    rw [List.flatMap_cons, if_neg hc, this]
    rfl

theorem flatMap_br_length (l : List Char) :
    (l.flatMap (fun c => if c = '\n' then "<br/>".data else [c])).length =
      l.length + 4 * l.count '\n' := by
  induction l with
  | nil => rfl
  | cons c cs ih =>
    rw [List.flatMap_cons, List.length_append, ih]
    by_cases hc : c = '\n'
    · subst hc
      have h5 : "<br/>".data.length = 5 := by decide
      rw [if_pos rfl, h5, List.count_cons_self, List.length_cons]
      omega
    · rw [if_neg hc, List.count_cons_of_ne (Ne.symm hc)]
      have h1 : [c].length = 1 := rfl
      rw [h1, List.length_cons]
      omega

/-- C17: the console section of the document rendered by `showOutputInNewTab`
holds the output with every newline replaced by '<br/>' and every other
character kept: the replaced text has no newline, it is the output itself when
the output has no newline, it is five characters per newline and one per
other character long, and replacing distributes over concatenation, a newline
alone becoming '<br/>'. -/
theorem console_replaces_newlines (d : Device) (o : String) :
    htmlContent d o =
      htmlUpToHeader ++ d.label ++ htmlUpToLabel ++ d.label ++ htmlUpToId ++ d.id ++
        htmlUpToCollector ++ d.collectorId ++ htmlUpToConsole ++ replaceNewlines o ++ htmlEnd ∧
    (∀ c ∈ (replaceNewlines o).data, c ≠ '\n') ∧
    ((∀ c ∈ o.data, c ≠ '\n') → replaceNewlines o = o) ∧
    (replaceNewlines o).data.length = o.data.length + 4 * o.data.count '\n' ∧
    (∀ a b : String, replaceNewlines (a ++ b) = replaceNewlines a ++ replaceNewlines b) ∧
    replaceNewlines "\n" = "<br/>" ∧
    (∀ a b : String, replaceNewlines (a ++ "\n" ++ b) =
      replaceNewlines a ++ "<br/>" ++ replaceNewlines b) := by
  have happ : ∀ a b : String,
      replaceNewlines (a ++ b) = replaceNewlines a ++ replaceNewlines b := by
    intro a b
    apply String.ext
    simp [replaceNewlines_data, String.data_append, List.flatMap_append]
  refine ⟨rfl, flatMap_br_no_newline o.data, ?_, flatMap_br_length o.data, happ, by decide, ?_⟩
  · intro hno
    apply String.ext
    rw [replaceNewlines_data]
    exact flatMap_br_of_no_newline o.data hno
  · intro a b
    rw [happ, happ]
    rfl

/-! ## Credentials -/

theorem ExtendsBy.by_emit {p : Effect → Bool} {a b : World} (e : Effect)
    (he : p e = true) (hab : ExtendsBy p a b) : ExtendsBy p a (emit e b) :=
  hab.cons e rfl he

theorem ExtendsBy.by_showInputBox {p : Effect → Bool} {a b : World}
    (prompt placeHolder : String) (password : Bool)
    (he : p (Effect.showInputBox prompt placeHolder password) = true) (hab : ExtendsBy p a b) :
    ExtendsBy p a (showInputBox prompt placeHolder password b) :=
  hab.cons _ rfl he

theorem ExtendsBy.by_showQuickPick {p : Effect → Bool} {a b : World}
    (items : List String) (placeHolder : String)
    (he : p (Effect.showQuickPick items placeHolder) = true) (hab : ExtendsBy p a b) :
    ExtendsBy p a (showQuickPick items placeHolder b) :=
  hab.cons _ rfl he

theorem ExtendsBy.by_showQuickPickDevices {p : Effect → Bool} {a b : World}
    (items : List Device) (placeHolder : String)
    (he : p (Effect.showQuickPickDevices items placeHolder) = true) (hab : ExtendsBy p a b) :
    ExtendsBy p a (showQuickPickDevices items placeHolder b) :=
  hab.cons _ rfl he

theorem ExtendsBy.by_axiosGetSearch {p : Effect → Bool} {a b : World}
    (url : String) (headers : Headers) (params : Params)
    (he : p (Effect.axiosGet url headers (some params)) = true) (hab : ExtendsBy p a b) :
    ExtendsBy p a (axiosGetSearch url headers params b) :=
  hab.cons _ rfl he

theorem ExtendsBy.by_globalStateUpdate {p : Effect → Bool} {a b : World}
    (value : Option Device)
    (he : p (Effect.globalStateUpdate value) = true) (hab : ExtendsBy p a b) :
    ExtendsBy p a (globalStateUpdate value b) :=
  hab.cons _ rfl he

theorem ExtendsBy.by_axiosPost {p : Effect → Bool} {a b : World}
    (url cmd : String) (headers : Headers)
    (he : p (Effect.axiosPost url cmd headers) = true) (hab : ExtendsBy p a b) :
    ExtendsBy p a (axiosPost url cmd headers b) :=
  hab.cons _ rfl he

theorem ExtendsBy.by_pollForOutput {p : Effect → Bool} {a b : World} (cfg : Settings)
    (sessionId collectorId apiKey companyName : String)
    (he : ∀ i ms, p (Effect.setInterval i ms) = true) (hab : ExtendsBy p a b) :
    ExtendsBy p a (pollForOutput cfg sessionId collectorId apiKey companyName b) :=
  hab.cons _ rfl (he _ _)

theorem fetch_error_not_missing (message : String) :
    isMissingCredentials (Effect.showErrorMessage ("Error fetching devices: " ++ message))
      = false := by
  have h : "Error fetching devices: " ++ message ≠
      "Credentials are missing. Please configure them again." := by
    intro heq
    have := congrArg (fun s => s.data.head?) heq
    simp [String.data_append] at this
  simpa [isMissingCredentials] using h

theorem run_error_not_missing (message : String) :
    isMissingCredentials (Effect.showErrorMessage ("Error running script: " ++ message))
      = false := by
  have h : "Error running script: " ++ message ≠
      "Credentials are missing. Please configure them again." := by
    intro heq
    have := congrArg (fun s => s.data.head?) heq
    simp [String.data_append] at this
  simpa [isMissingCredentials] using h

theorem ensureCredentials_not_missing (h : Host) (w : World) :
    ExtendsBy (fun e => !isMissingCredentials e) w (ensureCredentials h w).2 := by
  simp only [ensureCredentials]
  split_ifs <;>
    first
    | exact ⟨[], rfl, by simp⟩
    | exact ⟨[_, _], rfl, by simp [isMissingCredentials]⟩
    | exact ⟨[_, _, _, _], rfl, by simp [isMissingCredentials]⟩

theorem fetchDevices_not_missing (cfg : Settings) (h : Host) :
    ∀ (fuel : Nat) (w : World),
      ExtendsBy (fun e => !isMissingCredentials e) w (fetchDevices cfg h fuel w).world := by
  intro fuel
  induction fuel with
  | zero => intro w; exact ExtendsBy.same _ _
  | succ n ih =>
    intro w
    have hec := ensureCredentials_not_missing h w
    have htrue := ensureCredentials_true h w
    simp only [fetchDevices]
    generalize ensureCredentials h w = ec at hec htrue ⊢
    split
    · exact hec
    rename_i hc
    have hst := htrue (by simpa using hc)
    split
    · rename_i hmiss
      simp [hst.1, hst.2] at hmiss
    have h1 := hec.by_showQuickPick ["By IP", "By Name"]
      "Select how you want to search devices" rfl
    split
    · exact h1.by_emit _ (by decide)
    rename_i searchBy _
    have h2 := h1.by_showInputBox (searchPrompt searchBy) (searchPlaceHolder searchBy) false rfl
    split
    · exact h2.by_emit _ (by decide)
    have h3 := h2.by_axiosGetSearch
      (baseUrl cfg (ec.2.companyName.getD "") ++ "/device/devices")
      (mkHeaders cfg (ec.2.apiKey.getD ""))
      { filter := queryParam searchBy ((h.inputBox (showQuickPick ["By IP", "By Name"]
          "Select how you want to search devices" ec.2).nInput).getD ""),
        size := cfg.sizeValue } rfl
    split
    · rename_i message _
      exact (h3.by_emit (Effect.consoleError message) rfl).by_emit _
        (by rw [Bool.not_eq_true', fetch_error_not_missing])
    rename_i items _
    split
    · exact (h3.by_emit _ (by rfl)).chain (ih _)
    have h4 := h3.by_showQuickPickDevices (toDevices items)
      "Select a device to run the script on" rfl
    split
    · exact (h4.by_emit _ (by rfl)).by_globalStateUpdate _ rfl
    · exact h4

theorem afterSubmit_not_missing (cfg : Settings) (companyName apiKey : Option String)
    (d : Device) (script : String) (reply : Reply (Option String)) (w w2 : World)
    (hw2 : ExtendsBy (fun e => !isMissingCredentials e) w w2) :
    ExtendsBy (fun e => !isMissingCredentials e) w
      (afterSubmit cfg companyName apiKey d reply
        (submitted cfg companyName apiKey d script w2)) := by
  have h3 := hw2.by_axiosPost
    (baseUrl cfg (companyName.getD "") ++ "/debug/?collectorId=" ++ d.collectorId)
    (cmdline d script) (mkHeaders cfg (apiKey.getD "")) rfl
  unfold afterSubmit
  split
  · rename_i message
    exact (h3.by_emit (Effect.consoleError message) rfl).by_emit _
      (by rw [Bool.not_eq_true', run_error_not_missing])
  · split
    · exact h3.by_emit _ (by decide)
    · exact (h3.by_emit _ (by rfl)).by_pollForOutput cfg _ _ _ _ (fun _ _ => rfl)

theorem afterLookup_not_missing (cfg : Settings) (h : Host) (w w1 : World) (script : String)
    (r : Outcome) (hr : ExtendsBy (fun e => !isMissingCredentials e) w r.world) :
    ExtendsBy (fun e => !isMissingCredentials e) w (afterLookup cfg h w1 script r).world := by
  cases r with
  | unfinished w2 => exact hr
  | returned w2 =>
    rw [afterLookup_returned]
    cases hd : w2.selectedDevice with
    | none => exact ExtendsBy.by_emit _ (by decide) hr
    | some d => exact afterSubmit_not_missing cfg _ _ d script _ w w2 hr

theorem runScript_not_missing (cfg : Settings) (h : Host) (fuel : Nat) (w : World) :
    ExtendsBy (fun e => !isMissingCredentials e) w (runScriptOnDevice cfg h fuel w).world ∧
    ExtendsBy (fun e => !isMissingCredentials e) w (runScriptOnNewDevice cfg h fuel w).world := by
  have hec := ensureCredentials_not_missing h w
  have hfd := fetchDevices_not_missing cfg h fuel (ensureCredentials h w).2
  have hed := (ensureCredentials_frame h w).2.1
  cases hc : (ensureCredentials h w).1 with
  | false =>
    constructor
    · simp only [runScriptOnDevice, hc, if_true]
      exact hec
    · simp only [runScriptOnNewDevice, hc, if_true]
      exact hec
  | true =>
    have hst := ensureCredentials_true h w hc
    cases he : w.editor with
    | none =>
      rw [he] at hed
      constructor
      · simp only [runScriptOnDevice, hc, hst.1, hst.2, hed]
        exact hec.by_emit _ (by decide)
      · simp only [runScriptOnNewDevice, hc, hst.1, hst.2, hed]
        exact hec.by_emit _ (by decide)
    | some script =>
      by_cases hne : script = ""
      · subst hne
        have hrun := (runScript_empty_editor cfg h fuel w he).2 hc
        rw [hrun.1, hrun.2]
        exact ⟨hec.by_emit _ (by decide), hec.by_emit _ (by decide)⟩
      · have hr : ReachesLookup h w script := ⟨hc, he, hne⟩
        rw [runScriptOnDevice_reaches cfg h fuel w script hr,
          runScriptOnNewDevice_reaches cfg h fuel w script hr]
        constructor
        · apply afterLookup_not_missing
          unfold lookupIfNone
          split
          · exact hec
          · exact hec.chain hfd
        · exact afterLookup_not_missing cfg h w _ script _ (hec.chain hfd)

theorem ensureCredentials_keeps_companyName (h : Host) (w : World)
    (hc : falsy w.companyName = false) :
    (ensureCredentials h w).2.companyName = w.companyName ∧
    ExtendsBy (fun e => !isCompanyNameEffect e) w (ensureCredentials h w).2 := by
  simp only [ensureCredentials, hc, Bool.false_eq_true, if_false, Bool.true_eq_false]
  split_ifs <;>
    first
    | exact ⟨rfl, [], rfl, by simp⟩
    | exact ⟨rfl, [_, _], rfl, by simp [isCompanyNameEffect, COMPANY_NAME_KEY, API_KEY_KEY]⟩

theorem ensureCredentials_keeps_apiKey (h : Host) (w : World)
    (ha : falsy w.apiKey = false) :
    (ensureCredentials h w).2.apiKey = w.apiKey ∧
    ExtendsBy (fun e => !isApiKeyEffect e) w (ensureCredentials h w).2 := by
  simp only [ensureCredentials, ha, Bool.false_eq_true, if_false, Bool.true_eq_false]
  split_ifs <;>
    first
    | exact ⟨rfl, [], rfl, by simp⟩
    | exact ⟨rfl, [_, _], rfl, by simp [isApiKeyEffect, COMPANY_NAME_KEY, API_KEY_KEY]⟩

theorem ensureCredentials_false (h : Host) (w : World)
    (hf : (ensureCredentials h w).1 = false) :
    falsy (ensureCredentials h w).2.companyName = true ∨
    falsy (ensureCredentials h w).2.apiKey = true := by
  revert hf
  simp only [ensureCredentials]
  split_ifs <;> simp_all [emit, storeCompanyName, storeApiKey, showInputBox]

/-- C16: over the key-value secret store, `ensureCredentials` returns true if
and only if both the account identifier and the API token are stored and
non-empty when it returns; a value stored and non-empty before is neither
prompted for nor written; and no run of `fetchDevices`, `runScriptOnDevice` or
`runScriptOnNewDevice` ever shows 'Credentials are missing. Please configure
them again.': the branch that follows a true result is not reachable. -/
theorem ensureCredentials_true_iff_stored (cfg : Settings) (h : Host) (fuel : Nat) (w : World) :
    ((ensureCredentials h w).1 = true ↔
      (falsy (ensureCredentials h w).2.companyName = false ∧
       falsy (ensureCredentials h w).2.apiKey = false)) ∧
    (falsy w.companyName = false →
      (ensureCredentials h w).2.companyName = w.companyName ∧
      ExtendsBy (fun e => !isCompanyNameEffect e) w (ensureCredentials h w).2) ∧
    (falsy w.apiKey = false →
      (ensureCredentials h w).2.apiKey = w.apiKey ∧
      ExtendsBy (fun e => !isApiKeyEffect e) w (ensureCredentials h w).2) ∧
    ((ensureCredentials h w).1 = true →
      (falsy (ensureCredentials h w).2.companyName || falsy (ensureCredentials h w).2.apiKey)
        = false) ∧
    ExtendsBy (fun e => !isMissingCredentials e) w (fetchDevices cfg h fuel w).world ∧
    ExtendsBy (fun e => !isMissingCredentials e) w (runScriptOnDevice cfg h fuel w).world ∧
    ExtendsBy (fun e => !isMissingCredentials e) w (runScriptOnNewDevice cfg h fuel w).world := by
  refine ⟨⟨ensureCredentials_true h w, ?_⟩, ensureCredentials_keeps_companyName h w,
    ensureCredentials_keeps_apiKey h w, ?_, fetchDevices_not_missing cfg h fuel w,
    (runScript_not_missing cfg h fuel w).1, (runScript_not_missing cfg h fuel w).2⟩
  · intro hboth
    cases hc : (ensureCredentials h w).1 with
    | true => rfl
    | false =>
      rcases ensureCredentials_false h w hc with h1 | h1
      · rw [hboth.1] at h1; exact absurd h1 (by simp)
      · rw [hboth.2] at h1; exact absurd h1 (by simp)
  · intro hc
    have hst := ensureCredentials_true h w hc
    rw [hst.1, hst.2]
    rfl

/-! ## The persisted state under failure -/

theorem keepsStored_same (w : World) : KeepsStored w w :=
  ⟨fun _ => rfl, fun _ => rfl⟩

theorem keepsStored_chain {a b c : World} (hab : KeepsStored a b) (hbc : KeepsStored b c) :
    KeepsStored a c := by
  constructor
  · intro h
    have h1 := hab.1 h
    exact (hbc.1 (by rw [h1]; exact h)).trans h1
  · intro h
    have h1 := hab.2 h
    exact (hbc.2 (by rw [h1]; exact h)).trans h1

theorem ensureCredentials_keepsStored (h : Host) (w : World) :
    KeepsStored w (ensureCredentials h w).2 :=
  ⟨fun hc => (ensureCredentials_keeps_companyName h w hc).1,
   fun ha => (ensureCredentials_keeps_apiKey h w ha).1⟩

theorem fetchDevices_keepsStored (cfg : Settings) (h : Host) :
    ∀ (fuel : Nat) (w : World), KeepsStored w (fetchDevices cfg h fuel w).world := by
  intro fuel
  induction fuel with
  | zero => intro w; exact keepsStored_same w
  | succ n ih =>
    intro w
    have hec := ensureCredentials_keepsStored h w
    simp only [fetchDevices]
    generalize ensureCredentials h w = ec at hec ⊢
    split
    · exact hec
    split
    · exact hec
    split
    · exact hec
    split
    · exact hec
    split
    · exact hec
    split
    · exact keepsStored_chain
        (b := emit (Effect.showInformationMessage
          "No devices found matching your criteria. Please try again.")
          (axiosGetSearch _ _ _ (showInputBox _ _ _ (showQuickPick _ _ ec.2)))) hec (ih _)
    split
    · exact hec
    · exact hec

theorem fetchDevices_failed_slot (cfg : Settings) (h : Host) (fuel : Nat) (w w' : World)
    (hret : fetchDevices cfg h fuel w = Outcome.returned w') (hf : Failed w') :
    w'.selectedDevice = w.selectedDevice := by
  rcases fetchDevices_slot cfg h fuel w with h1 | ⟨d, ⟨v, hv, hhead⟩, _⟩
  · rw [hret] at h1; exact h1
  · rw [hret] at hv
    cases hv
    obtain ⟨m, hm⟩ := hf
    rw [hm] at hhead
    simp at hhead

theorem afterLookup_persisted (cfg : Settings) (h : Host) (w1 : World) (script : String)
    (r : Outcome) :
    persisted (afterLookup cfg h w1 script r).world = persisted r.world := by
  cases r with
  | unfinished w2 => rfl
  | returned w2 =>
    rw [afterLookup_returned]
    cases hd : w2.selectedDevice with
    | none => simp only [persisted, Outcome.world, emit, hd]
    | some d =>
      have hfr := afterSubmit_submitted_frame cfg w1.companyName w1.apiKey d script
        (h.submit w2.nSubmit) w2
      simp only [persisted, Outcome.world, hfr.1, hfr.2.1, hfr.2.2.1]

theorem persisted_eq_iff (a b : World) :
    persisted a = persisted b ↔
      a.companyName = b.companyName ∧ a.apiKey = b.apiKey ∧
      a.selectedDevice = b.selectedDevice := by
  simp [persisted, Prod.ext_iff]

theorem runScript_persisted (cfg : Settings) (h : Host) (fuel : Nat) (w : World) :
    (persisted (runScriptOnDevice cfg h fuel w).world = persisted (ensureCredentials h w).2 ∨
     persisted (runScriptOnDevice cfg h fuel w).world =
       persisted (lookupIfNone cfg h fuel (ensureCredentials h w).2).world) ∧
    (persisted (runScriptOnNewDevice cfg h fuel w).world = persisted (ensureCredentials h w).2 ∨
     persisted (runScriptOnNewDevice cfg h fuel w).world =
       persisted (fetchDevices cfg h fuel (ensureCredentials h w).2).world) := by
  have hed := (ensureCredentials_frame h w).2.1
  cases hc : (ensureCredentials h w).1 with
  | false =>
    constructor
    · left; simp only [runScriptOnDevice, hc, if_true, Outcome.world]
    · left; simp only [runScriptOnNewDevice, hc, if_true, Outcome.world]
  | true =>
    have hst := ensureCredentials_true h w hc
    cases he : w.editor with
    | none =>
      rw [he] at hed
      constructor
      · left; simp only [runScriptOnDevice, hc, hst.1, hst.2, hed]; rfl
      · left; simp only [runScriptOnNewDevice, hc, hst.1, hst.2, hed]; rfl
    | some script =>
      by_cases hne : script = ""
      · subst hne
        have hrun := (runScript_empty_editor cfg h fuel w he).2 hc
        rw [hrun.1, hrun.2]
        exact ⟨Or.inl rfl, Or.inl rfl⟩
      · have hr : ReachesLookup h w script := ⟨hc, he, hne⟩
        rw [runScriptOnDevice_reaches cfg h fuel w script hr,
          runScriptOnNewDevice_reaches cfg h fuel w script hr]
        exact ⟨Or.inr (afterLookup_persisted _ _ _ _ _), Or.inr (afterLookup_persisted _ _ _ _ _)⟩

theorem update_failure_keeps_state (h : Host) (w : World) :
    (Failed (updateCompanyName h w) → persisted (updateCompanyName h w) = persisted w) ∧
    (Failed (updateApiKey h w) → persisted (updateApiKey h w) = persisted w) := by
  constructor
  · simp only [updateCompanyName]
    split
    · intro _; rfl
    · rintro ⟨m, hm⟩
      simp [emit] at hm
  · simp only [updateApiKey]
    split
    · intro _; rfl
    · rintro ⟨m, hm⟩
      simp [emit] at hm

theorem clear_never_fails (w : World) :
    ¬ Failed (clearConfig w) ∧ ¬ Failed (clearApiKey w) ∧ ¬ Failed (clearCompanyName w) := by
  refine ⟨?_, ?_, ?_⟩ <;> rintro ⟨m, hm⟩ <;>
    simp [clearConfig, clearApiKey, clearCompanyName, emit] at hm

theorem configure_failure (h : Host) (w : World) (hf : Failed (configure h w)) :
    (configure h w).apiKey = w.apiKey ∧
    (configure h w).selectedDevice = w.selectedDevice ∧
    (falsy (h.inputBox w.nInput) = true → persisted (configure h w) = persisted w) ∧
    (falsy (h.inputBox w.nInput) = false →
      (configure h w).companyName = h.inputBox w.nInput) := by
  revert hf
  simp only [configure]
  split
  · rename_i hc
    intro _
    exact ⟨rfl, rfl, fun _ => rfl, fun hfa => by rw [hc] at hfa; exact absurd hfa (by simp)⟩
  · rename_i hc
    split
    · intro _
      refine ⟨rfl, rfl, fun hfa => absurd hfa hc, fun _ => ?_⟩
      show some ((h.inputBox w.nInput).getD "") = h.inputBox w.nInput
      cases hin : h.inputBox w.nInput with
      | none => simp [hin] at hc
      | some s => rfl
    · rintro ⟨m, hm⟩
      simp [emit] at hm

/-- C13 (amended): a command that ends in failure leaves the persisted state
as it was except for what its own earlier steps wrote.  A failing update
command changes nothing and the clear commands never fail.  A failing
`configure` leaves the API token and the device as they were; the account
identifier is as it was when the first prompt was dismissed, and it is the
identifier entered at the first prompt when the failure is at the API-key
prompt.  A failing `fetchDevices` leaves the device as it was and every
credential that was stored and non-empty.  A run-script command, failing or
not, leaves every credential that was stored and non-empty, and its device is
either as it was or the one the lookup of this invocation selected;
`runScriptOnDevice` with both credentials stored and a device selected leaves
the whole persisted state as it was. -/
theorem failure_keeps_unwritten_state (cfg : Settings) (h : Host) (fuel : Nat) (w : World) :
    (Failed (updateCompanyName h w) → persisted (updateCompanyName h w) = persisted w) ∧
    (Failed (updateApiKey h w) → persisted (updateApiKey h w) = persisted w) ∧
    (¬ Failed (clearConfig w) ∧ ¬ Failed (clearApiKey w) ∧ ¬ Failed (clearCompanyName w)) ∧
    (Failed (configure h w) →
      (configure h w).apiKey = w.apiKey ∧
      (configure h w).selectedDevice = w.selectedDevice ∧
      (falsy (h.inputBox w.nInput) = true → persisted (configure h w) = persisted w) ∧
      (falsy (h.inputBox w.nInput) = false →
        (configure h w).companyName = h.inputBox w.nInput)) ∧
    (∀ w', fetchDevices cfg h fuel w = Outcome.returned w' → Failed w' →
      w'.selectedDevice = w.selectedDevice ∧ KeepsStored w w' ∧
      (falsy w.companyName = false → falsy w.apiKey = false → persisted w' = persisted w)) ∧
    (∀ out, out = runScriptOnDevice cfg h fuel w ∨ out = runScriptOnNewDevice cfg h fuel w →
      KeepsStored w out.world ∧
      (out.world.selectedDevice = w.selectedDevice ∨
        ∃ d, Selects (fetchDevices cfg h fuel (ensureCredentials h w).2) d ∧
          out.world.selectedDevice = some d)) ∧
    (∀ D, falsy w.companyName = false → falsy w.apiKey = false → w.selectedDevice = some D →
      persisted (runScriptOnDevice cfg h fuel w).world = persisted w) := by
  have hkec := ensureCredentials_keepsStored h w
  have hsec := (ensureCredentials_frame h w).1
  have hkfd := fetchDevices_keepsStored cfg h fuel (ensureCredentials h w).2
  have hslot := fetchDevices_slot cfg h fuel (ensureCredentials h w).2
  have hrun := runScript_persisted cfg h fuel w
  have hnew : KeepsStored w (runScriptOnNewDevice cfg h fuel w).world ∧
      ((runScriptOnNewDevice cfg h fuel w).world.selectedDevice = w.selectedDevice ∨
        ∃ d, Selects (fetchDevices cfg h fuel (ensureCredentials h w).2) d ∧
          (runScriptOnNewDevice cfg h fuel w).world.selectedDevice = some d) := by
    rcases hrun.2 with hp | hp
    · rw [persisted_eq_iff] at hp
      refine ⟨⟨fun hc => hp.1.trans (hkec.1 hc), fun ha => hp.2.1.trans (hkec.2 ha)⟩, ?_⟩
      exact Or.inl (hp.2.2.trans hsec)
    · rw [persisted_eq_iff] at hp
      have hk := keepsStored_chain hkec hkfd
      refine ⟨⟨fun hc => hp.1.trans (hk.1 hc), fun ha => hp.2.1.trans (hk.2 ha)⟩, ?_⟩
      rcases hslot with h1 | ⟨d, hsel, h1⟩
      · exact Or.inl (hp.2.2.trans (h1.trans hsec))
      · exact Or.inr ⟨d, hsel, hp.2.2.trans h1⟩
  have hdev : KeepsStored w (runScriptOnDevice cfg h fuel w).world ∧
      ((runScriptOnDevice cfg h fuel w).world.selectedDevice = w.selectedDevice ∨
        ∃ d, Selects (fetchDevices cfg h fuel (ensureCredentials h w).2) d ∧
          (runScriptOnDevice cfg h fuel w).world.selectedDevice = some d) := by
    rcases hrun.1 with hp | hp
    · rw [persisted_eq_iff] at hp
      refine ⟨⟨fun hc => hp.1.trans (hkec.1 hc), fun ha => hp.2.1.trans (hkec.2 ha)⟩, ?_⟩
      exact Or.inl (hp.2.2.trans hsec)
    · rw [persisted_eq_iff] at hp
      unfold lookupIfNone at hp
      split at hp
      · refine ⟨⟨fun hc => hp.1.trans (hkec.1 hc), fun ha => hp.2.1.trans (hkec.2 ha)⟩, ?_⟩
        exact Or.inl (hp.2.2.trans hsec)
      · have hk := keepsStored_chain hkec hkfd
        refine ⟨⟨fun hc => hp.1.trans (hk.1 hc), fun ha => hp.2.1.trans (hk.2 ha)⟩, ?_⟩
        rcases hslot with h1 | ⟨d, hsel, h1⟩
        · exact Or.inl (hp.2.2.trans (h1.trans hsec))
        · exact Or.inr ⟨d, hsel, hp.2.2.trans h1⟩
  refine ⟨(update_failure_keeps_state h w).1, (update_failure_keeps_state h w).2,
    clear_never_fails w, configure_failure h w, ?_, ?_, ?_⟩
  · intro w' hret hf
    have hslot' := fetchDevices_failed_slot cfg h fuel w w' hret hf
    have hk := fetchDevices_keepsStored cfg h fuel w
    rw [hret] at hk
    refine ⟨hslot', hk, fun hc ha => ?_⟩
    rw [persisted_eq_iff]
    exact ⟨hk.1 hc, hk.2 ha, hslot'⟩
  · intro out hout
    rcases hout with hout | hout
    · rw [hout]; exact hdev
    · rw [hout]; exact hnew
  · intro D hc ha hD
    have hec : ensureCredentials h w = (true, w) := ensureCredentials_stored h w hc ha
    rcases hrun.1 with hp | hp
    · rw [hp, hec]
    · rw [hp, hec]
      simp only [lookupIfNone, hD, Outcome.world]

/-- C13 (counterexample): `configure` with an account identifier entered and
the API-key prompt dismissed ends with 'API key is required!' after it has
overwritten the stored identifier; and `runScriptOnDevice` from a state with
no device, whose submission fails, ends with 'Error running script: Network
Error' after its lookup has selected a device. -/
theorem failure_after_partial_write :
    (configure hostHalf worldEx).trace.head?
      = some (Effect.showErrorMessage "API key is required!") ∧
    worldEx.companyName = some "acme" ∧
    (configure hostHalf worldEx).companyName = some "other" ∧
    (runScriptOnDevice cfgEx hostSubmitFails 1 worldEx).world.trace.head?
      = some (Effect.showErrorMessage "Error running script: Network Error") ∧
    worldEx.selectedDevice = none ∧
    (runScriptOnDevice cfgEx hostSubmitFails 1 worldEx).world.selectedDevice = some deviceEx := by
  refine ⟨?_, rfl, ?_, ?_, rfl, ?_⟩ <;> decide

/-! ## Further witnesses and evaluations -/

/-- C18 (the code at the failing input): the script is submitted to
`deviceEx` and polling starts.  When the slot is cleared before the output
arrives, the output is handed to `showOutputInNewTab`, no panel is rendered
and the error of the TypeError is shown; when another device is selected
before the output arrives, the panel is rendered with that other device. -/
theorem output_panel_reads_slot_at_render_time :
    posts worldPolling
      = [("https://acme.logicmonitor.com/santaba/rest/debug/?collectorId=7",
          "!groovy hostId=42 \n println 1")] ∧
    readyEvents (pollRun cfgEx (clearSelectedDevice worldPolling)
      [PollStep.fire 0, PollStep.respond 0 (Reply.ok (some "done"))]) = ["done"] ∧
    panels (pollRun cfgEx (clearSelectedDevice worldPolling)
      [PollStep.fire 0, PollStep.respond 0 (Reply.ok (some "done"))]) = [] ∧
    errorMessages (pollRun cfgEx (clearSelectedDevice worldPolling)
      [PollStep.fire 0, PollStep.respond 0 (Reply.ok (some "done"))])
      = ["Error polling for script output: Cannot read properties of null (reading \x27label\x27)"] ∧
    (fetchDevices cfgEx hostOther 1 worldPolling).world.selectedDevice = some deviceOther ∧
    panels (pollRun cfgEx (fetchDevices cfgEx hostOther 1 worldPolling).world
      [PollStep.fire 0, PollStep.respond 0 (Reply.ok (some "done"))])
      = [htmlContent deviceOther "done"] ∧
    deviceOther ≠ deviceEx := by
  have hstate : pollerState (fetchDevices cfgEx hostOther 1 worldPolling).world 0
      = some (true, 0) := by decide
  have hf := timerFires_idle cfgEx 0 _ hstate
  have hr := pollResponse_ready 0 _ "done" hf.1 (by decide)
  have hsel : (timerFires cfgEx 0
      (fetchDevices cfgEx hostOther 1 worldPolling).world).selectedDevice = some deviceOther := by
    rw [hf.2.2.2.2.2]; decide
  have hpanel := (hr.2.2.2.2.1 deviceOther hsel).2
  rw [hf.2.2.2.2.1] at hpanel
  refine ⟨by decide, by decide, by decide, by decide, by decide, ?_, by decide⟩
  exact hpanel.trans (by
    have : panels (fetchDevices cfgEx hostOther 1 worldPolling).world = [] := by decide
    rw [this])

theorem run_commands_agree_without_device_witness :
    runScriptOnDevice cfgEx hostEx 1 worldEx = runScriptOnNewDevice cfgEx hostEx 1 worldEx :=
  run_commands_agree_without_device cfgEx hostEx 1 worldEx rfl

theorem runScriptOnDevice_reuses_selected_witness :
    (runScriptOnDevice cfgEx hostEx 1 worldSelected).world.selectedDevice = some deviceEx ∧
    (runScriptOnDevice cfgEx hostEx 1 worldSelected).world.nInput = worldSelected.nInput ∧
    (runScriptOnDevice cfgEx hostEx 1 worldSelected).world.nPick = worldSelected.nPick ∧
    (runScriptOnDevice cfgEx hostEx 1 worldSelected).world.nSearch = worldSelected.nSearch :=
  have h := (runScriptOnDevice_reuses_selected cfgEx hostEx 1 worldSelected "println 1"
    (by decide) (by decide) rfl (by decide)).1 deviceEx rfl
  ⟨h.2.1, h.2.2.1, h.2.2.2.1, h.2.2.2.2.1⟩

theorem submission_needs_device_witness :
    runScriptOnNewDevice cfgEx hostDismiss 1 worldEx = Outcome.returned
      (emit (Effect.showErrorMessage
        "No device selected. Please select a device to run the script on.")
        (fetchDevices cfgEx hostDismiss 1 worldEx).world) :=
  ((submission_needs_device cfgEx hostDismiss 1 worldEx
    (runScriptOnNewDevice cfgEx hostDismiss 1 worldEx) (Or.inr rfl)).2 "println 1"
    (fetchDevices cfgEx hostDismiss 1 worldEx).world
    ⟨by decide, rfl, by decide⟩ (by decide) (by decide)).1

theorem ensureCredentials_true_iff_stored_witness :
    (ensureCredentials hostEx worldEx).1 = true ↔
      (falsy (ensureCredentials hostEx worldEx).2.companyName = false ∧
       falsy (ensureCredentials hostEx worldEx).2.apiKey = false) :=
  (ensureCredentials_true_iff_stored cfgEx hostEx 1 worldEx).1

theorem console_replaces_newlines_witness :
    (replaceNewlines "a\nb").data.length = "a\nb".data.length + 4 * "a\nb".data.count '\n' :=
  (console_replaces_newlines deviceEx "a\nb").2.2.2.1

theorem failure_keeps_unwritten_state_witness :
    persisted (updateCompanyName hostCancel worldEx) = persisted worldEx :=
  (failure_keeps_unwritten_state cfgEx hostCancel 1 worldEx).1 ⟨_, rfl⟩

end LogicMonitor
